import Mathlib

/-!
Verification of the SystemLogAnalyzer core pipeline.

This file gives a shallow embedding, in Lean 4, of the log-ingestion and
issue-detection core of the SystemLogAnalyzer repository:

* `log_parser.py`  — timestamp normalisation (`_parse_timestamp`),
  text-log match conversion (`_parse_text_log_file`), and session
  discovery (`discover_logs`);
* `issue_detector.py` — message normalisation and fingerprinting
  (`_get_issue_signature`), grouping (`detect_issues`), categorisation
  (`_categorize_issue`), and issue construction
  (`_create_issue_from_entries`);
* `models.py` — the `Issue` data model, `Issue.user_count` and
  `AnalysisReport.get_sorted_issues`.

Python strings are modelled as `List Char` (ASCII-faithful: Python's
`str.lower`, regex digit and whitespace classes are modelled on their ASCII
behaviour).  Python's `re.sub` calls in `_get_issue_signature` use only
patterns of the shape "fixed-width token / greedy character-class run",
which are embedded as direct left-to-right scanners with exactly the
leftmost, non-overlapping semantics of `re.sub`.  The MD5 hex digest is
kept abstract as a function parameter `h : List Char → List Char`;
statements that need the digest to separate distinct inputs assume
`Function.Injective h`.
-/

/-- Whitespace characters of Python's `str.strip` / regex whitespace class
(ASCII part). -/
def isPySpace (c : Char) : Bool :=
  c == ' ' || c == '\t' || c == '\n' || c == '\r' || c == '\x0b' || c == '\x0c'

/-- ASCII lower-casing of a single character, as Python's `str.lower` acts on
the ASCII range: `A`-`Z` maps to `a`-`z`, everything else is unchanged. -/
def pyLowerC (c : Char) : Char :=
  if 65 ≤ c.toNat ∧ c.toNat ≤ 90 then Char.ofNat (c.toNat + 32) else c

/-- Python `s.lower()` on a string, character-wise. -/
def pyLower (s : List Char) : List Char := s.map pyLowerC

/-- Python `s.strip()`: drop leading and trailing whitespace. -/
def pyStrip (s : List Char) : List Char :=
  ((s.dropWhile isPySpace).reverse.dropWhile isPySpace).reverse

theorem toNat_ofNat_valid (n : Nat) (h : n < 55296) : (Char.ofNat n).toNat = n := by
  have hv : n.isValidChar := Or.inl h
  simp [Char.ofNat, hv, Char.ofNatAux, Char.toNat, UInt32.ofNat', UInt32.toNat]

theorem pyLowerC_idem (c : Char) : pyLowerC (pyLowerC c) = pyLowerC c := by
  unfold pyLowerC
  by_cases h : 65 ≤ c.toNat ∧ c.toNat ≤ 90
  · simp only [if_pos h]
    have h2 : (Char.ofNat (c.toNat + 32)).toNat = c.toNat + 32 :=
      toNat_ofNat_valid _ (by omega)
    rw [if_neg (by omega)]
  · simp only [if_neg h]

theorem isDigit_iff_toNat (c : Char) : c.isDigit = true ↔ 48 ≤ c.toNat ∧ c.toNat ≤ 57 := by
  simp only [Char.isDigit, ge_iff_le, Bool.and_eq_true, decide_eq_true_eq]
  exact Iff.rfl

/-- The decimal digit character for `d < 10` (offset 48 is ASCII zero). -/
def digitChar10 (d : Nat) : Char := Char.ofNat (48 + d)

/-- Numeric value of a decimal digit character. -/
def digitVal (c : Char) : Nat := c.toNat - 48

/-- Fuel-driven decimal printing loop (structural recursion so that concrete
instances evaluate inside the kernel). -/
def natStrGo : Nat → Nat → List Char
  | 0, n => [digitChar10 (n % 10)]
  | f + 1, n => if n < 10 then [digitChar10 n] else natStrGo f (n / 10) ++ [digitChar10 (n % 10)]

/-- Decimal representation of a natural number, as Python's `str` prints it. -/
def natStr (n : Nat) : List Char := natStrGo n n

/-- Decimal representation of an integer, as Python's `str` prints it. -/
def intStr (i : Int) : List Char :=
  if i < 0 then '-' :: natStr i.natAbs else natStr i.natAbs

/-- Left inverse of decimal printing: fold digits back into a number. -/
def digitsVal (s : List Char) : Nat := s.foldl (fun a c => 10 * a + digitVal c) 0

theorem digitVal_digitChar10 (d : Nat) (h : d < 10) : digitVal (digitChar10 d) = d := by
  unfold digitVal digitChar10
  rw [toNat_ofNat_valid _ (by omega)]
  omega

theorem isDigit_digitChar10 (d : Nat) (h : d < 10) : (digitChar10 d).isDigit = true := by
  rw [isDigit_iff_toNat]
  unfold digitChar10
  rw [toNat_ofNat_valid _ (by omega)]
  omega

theorem digitsVal_append_last (s : List Char) (c : Char) :
    digitsVal (s ++ [c]) = 10 * digitsVal s + digitVal c := by
  unfold digitsVal
  rw [List.foldl_append]
  rfl

theorem digitsVal_natStrGo : ∀ f n, n < 10 ^ (f + 1) → digitsVal (natStrGo f n) = n := by
  intro f
  induction f with
  | zero =>
    intro n hn
    have h10 : n < 10 := by simpa using hn
    show digitsVal [digitChar10 (n % 10)] = n
    have hmod : n % 10 = n := Nat.mod_eq_of_lt h10
    simp [digitsVal, hmod, digitVal_digitChar10 n h10]
  | succ f ih =>
    intro n hn
    by_cases h10 : n < 10
    · simp [natStrGo, h10, digitsVal, digitVal_digitChar10 n h10]
    · have hdiv : n / 10 < 10 ^ (f + 1) := by
        have hstep : n < 10 ^ (f + 2) := hn
        have h1 : n / 10 < 10 ^ (f + 2) / 10 + 1 := by
          have := Nat.div_le_div_right (c := 10) (Nat.le_of_lt hstep)
          omega
        have h2 : 10 ^ (f + 2) / 10 = 10 ^ (f + 1) := by
          rw [pow_succ]
          omega
        rw [h2] at h1
        have h3 : n / 10 ≠ 10 ^ (f + 1) := by
          intro he
          have hm : 10 ^ (f + 1) * 10 ≤ n := by
            have := Nat.div_mul_le_self n 10
            omega
          rw [← pow_succ] at hm
          omega
        omega
      simp only [natStrGo, if_neg h10]
      rw [digitsVal_append_last, ih _ hdiv]
      have := Nat.div_add_mod n 10
      have hlt : n % 10 < 10 := Nat.mod_lt _ (by omega)
      rw [digitVal_digitChar10 _ hlt]
      omega

theorem lt_pow_ten (n : Nat) : n < 10 ^ (n + 1) := by
  have h1 : n < 2 ^ n := Nat.lt_two_pow n
  have h2 : 2 ^ n ≤ 10 ^ n := Nat.pow_le_pow_left (by omega) n
  have h3 : 10 ^ n < 10 ^ (n + 1) := Nat.pow_lt_pow_right (by omega) (by omega)
  omega

theorem digitsVal_natStr (n : Nat) : digitsVal (natStr n) = n :=
  digitsVal_natStrGo n n (lt_pow_ten n)

theorem natStr_injective : Function.Injective natStr := by
  intro a b h
  have hv := digitsVal_natStr a
  rw [h, digitsVal_natStr] at hv
  omega

theorem mem_natStrGo_isDigit : ∀ f n c, c ∈ natStrGo f n → c.isDigit = true := by
  intro f
  induction f with
  | zero =>
    intro n c hc
    simp only [natStrGo, List.mem_singleton] at hc
    subst hc
    exact isDigit_digitChar10 _ (Nat.mod_lt _ (by omega))
  | succ f ih =>
    intro n c hc
    by_cases h10 : n < 10
    · simp only [natStrGo, if_pos h10, List.mem_singleton] at hc
      subst hc
      exact isDigit_digitChar10 _ h10
    · simp only [natStrGo, if_neg h10, List.mem_append, List.mem_singleton] at hc
      rcases hc with hc | hc
      · exact ih _ _ hc
      · subst hc
        exact isDigit_digitChar10 _ (Nat.mod_lt _ (by omega))

theorem natStr_ne_nil (n : Nat) : natStr n ≠ [] := by
  unfold natStr
  cases hn : natStrGo n n with
  | nil =>
    exfalso
    cases n with
    | zero => simp [natStrGo] at hn
    | succ m =>
      by_cases h10 : m + 1 < 10
      · simp [natStrGo, h10] at hn
      · simp [natStrGo, h10] at hn
  | cons c cs => simp

theorem intStr_injective : Function.Injective intStr := by
  intro a b h
  unfold intStr at h
  by_cases ha : a < 0 <;> by_cases hb : b < 0
  · rw [if_pos ha, if_pos hb] at h
    injection h with h1 h2
    have := natStr_injective h2
    omega
  · rw [if_pos ha, if_neg hb] at h
    exfalso
    cases hns : natStr b.natAbs with
    | nil => exact natStr_ne_nil _ hns
    | cons c cs =>
      rw [hns] at h
      injection h with h1 h2
      have hcd : c.isDigit = true := mem_natStrGo_isDigit _ _ c (by rw [← natStr, hns]; simp)
      rw [← h1] at hcd
      simp [Char.isDigit] at hcd
  · rw [if_neg ha, if_pos hb] at h
    exfalso
    cases hns : natStr a.natAbs with
    | nil => exact natStr_ne_nil _ hns
    | cons c cs =>
      rw [hns] at h
      injection h with h1 h2
      have hcd : c.isDigit = true := mem_natStrGo_isDigit _ _ c (by rw [← natStr, hns]; simp)
      rw [h1] at hcd
      simp [Char.isDigit] at hcd
  · rw [if_neg ha, if_neg hb] at h
    have := natStr_injective h
    omega

/-! ### The five substitutions of `IssueDetector._get_issue_signature`

Each `re.sub` pattern used by `_get_issue_signature` has the shape "a
fixed-width head (`k + 1` characters, recognised by a `starts` test)
followed by a greedy run of a character class `p`".  `scanSub` is the
generic left-to-right scanner with the leftmost, non-overlapping semantics
of `re.sub`: at each position, if a match starts there, the whole match is
replaced by `tok` and scanning resumes after the match; otherwise the
character is kept and scanning moves one position right. -/
def scanSub (starts : List Char → Bool) (tok : List Char) (k : Nat) (p : Char → Bool) :
    List Char → List Char
  | [] => []
  | c :: cs =>
    if starts (c :: cs) then
      tok ++ scanSub starts tok k p (((c :: cs).drop (k + 1)).dropWhile p)
    else
      c :: scanSub starts tok k p cs
termination_by l => l.length
decreasing_by
  · have h1 := List.Sublist.length_le (List.dropWhile_sublist p (l := (c :: cs).drop (k + 1)))
    have h2 : ((c :: cs).drop (k + 1)).length = (c :: cs).length - (k + 1) := by
      rw [List.length_drop]
    simp only [List.length_cons] at *
    omega
  · simp

theorem scanSub_nil (starts : List Char → Bool) (tok : List Char) (k : Nat) (p : Char → Bool) :
    scanSub starts tok k p [] = [] := by
  rw [scanSub]

theorem scanSub_cons (starts : List Char → Bool) (tok : List Char) (k : Nat) (p : Char → Bool)
    (c : Char) (cs : List Char) :
    scanSub starts tok k p (c :: cs) =
      if starts (c :: cs) then
        tok ++ scanSub starts tok k p (((c :: cs).drop (k + 1)).dropWhile p)
      else
        c :: scanSub starts tok k p cs := by
  rw [scanSub]

/-- Match test for the pattern of four digits, a dash, two digits, a dash,
two digits, at the head of the list. -/
def startsDate : List Char → Bool
  | d1 :: d2 :: d3 :: d4 :: s1 :: d5 :: d6 :: s2 :: d7 :: d8 :: _ =>
    d1.isDigit && d2.isDigit && d3.isDigit && d4.isDigit && s1 == '-' &&
      d5.isDigit && d6.isDigit && s2 == '-' && d7.isDigit && d8.isDigit
  | _ => false

/-- Match test for the pattern of two digits, a colon, two digits, a colon,
two digits, at the head of the list. -/
def startsTime : List Char → Bool
  | d1 :: d2 :: s1 :: d3 :: d4 :: s2 :: d5 :: d6 :: _ =>
    d1.isDigit && d2.isDigit && s1 == ':' && d3.isDigit && d4.isDigit && s2 == ':' &&
      d5.isDigit && d6.isDigit
  | _ => false

/-- Lower-case hexadecimal digit class of the `0x` pattern. -/
def isHexLower (c : Char) : Bool :=
  c.isDigit || (decide (97 ≤ c.toNat) && decide (c.toNat ≤ 102))

/-- Match test for a zero, an `x`, and at least one hex digit at the head. -/
def startsHex : List Char → Bool
  | c1 :: c2 :: c3 :: _ => c1 == '0' && c2 == 'x' && isHexLower c3
  | _ => false

/-- Match test for at least one decimal digit at the head. -/
def startsNum : List Char → Bool
  | c :: _ => c.isDigit
  | [] => false

/-- ASCII letter class of the drive-path pattern (the original pattern is
lower-case letters with the IGNORECASE flag, hence both cases match). -/
def isAsciiAlpha (c : Char) : Bool :=
  (decide (65 ≤ c.toNat) && decide (c.toNat ≤ 90)) ||
    (decide (97 ≤ c.toNat) && decide (c.toNat ≤ 122))

/-- Match test for a drive letter, a colon, a backslash and at least one
non-whitespace character at the head. -/
def startsPath : List Char → Bool
  | c1 :: c2 :: c3 :: c4 :: _ => isAsciiAlpha c1 && c2 == ':' && c3 == '\\' && !(isPySpace c4)
  | _ => false

/-- The date substitution of `_get_issue_signature` (10-character match,
no greedy tail). -/
def subDate : List Char → List Char := scanSub startsDate (("<date>").toList) 9 (fun _ => false)

/-- The time substitution of `_get_issue_signature` (8-character match,
no greedy tail). -/
def subTime : List Char → List Char := scanSub startsTime (("<time>").toList) 7 (fun _ => false)

/-- The hexadecimal-literal substitution of `_get_issue_signature` (3-character
minimum match, greedy hex tail). -/
def subHex : List Char → List Char := scanSub startsHex (("<hex>").toList) 2 isHexLower

/-- The digit-run substitution of `_get_issue_signature` (1-digit minimum
match, greedy digit tail). -/
def subNum : List Char → List Char := scanSub startsNum (("<num>").toList) 0 Char.isDigit

/-- The drive-path substitution of `_get_issue_signature` (4-character minimum
match, greedy non-whitespace tail). -/
def subPath : List Char → List Char :=
  scanSub startsPath (("<path>").toList) 3 (fun c => !(isPySpace c))

/-- The full message-normalisation pipeline of `_get_issue_signature`:
lower-case, then mask dates, times, hex literals, digit runs and
drive paths, in the order the source applies its `re.sub` calls. -/
def normalizeMsg (s : List Char) : List Char :=
  subPath (subNum (subHex (subTime (subDate (pyLower s)))))

/-! ### Generic facts about `scanSub` -/

theorem mem_scanSub (starts : List Char → Bool) (tok : List Char) (k : Nat) (p : Char → Bool) :
    ∀ n l, l.length ≤ n → ∀ c, c ∈ scanSub starts tok k p l → c ∈ tok ∨ c ∈ l := by
  intro n
  induction n with
  | zero =>
    intro l hl c hc
    have : l = [] := List.length_eq_zero.mp (Nat.le_zero.mp hl)
    subst this
    rw [scanSub_nil] at hc
    simp at hc
  | succ n ih =>
    intro l hl c hc
    cases l with
    | nil =>
      rw [scanSub_nil] at hc
      simp at hc
    | cons x xs =>
      rw [scanSub_cons] at hc
      by_cases hs : starts (x :: xs) = true
      · rw [if_pos hs] at hc
        rcases List.mem_append.mp hc with hm | hm
        · exact Or.inl hm
        · have hlen : (((x :: xs).drop (k + 1)).dropWhile p).length ≤ n := by
            have h1 := List.Sublist.length_le (List.dropWhile_sublist p (l := (x :: xs).drop (k + 1)))
            have h2 : ((x :: xs).drop (k + 1)).length = (x :: xs).length - (k + 1) := by
              rw [List.length_drop]
            simp only [List.length_cons] at *
            omega
          rcases ih _ hlen c hm with h | h
          · exact Or.inl h
          · right
            exact (List.Sublist.subset ((List.dropWhile_sublist p).trans (List.drop_sublist _ _))) h
      · rw [if_neg hs] at hc
        rcases List.mem_cons.mp hc with hm | hm
        · right
          rw [hm]
          simp
        · rcases ih xs (by simp at hl; omega) c hm with h | h
          · exact Or.inl h
          · right
            exact List.mem_cons_of_mem _ h

theorem scanSub_eq_self (starts : List Char → Bool) (tok : List Char) (k : Nat) (p : Char → Bool) :
    ∀ l, (∀ t, t <:+ l → starts t = false) → scanSub starts tok k p l = l := by
  intro l
  induction l with
  | nil => intro _; rw [scanSub_nil]
  | cons x xs ih =>
    intro h
    rw [scanSub_cons, if_neg (by rw [h (x :: xs) (List.suffix_refl _)]; simp)]
    rw [ih (fun t ht => h t (ht.trans (List.suffix_cons x xs)))]

/-! ### Digit-freeness makes the date, time, hex and num substitutions vanish -/

/-- No character of the list is a decimal digit. -/
def noDigit (l : List Char) : Prop := ∀ c ∈ l, c.isDigit = false

theorem startsDate_head (c : Char) (cs : List Char) (h : startsDate (c :: cs) = true) :
    c.isDigit = true := by
  rcases cs with _ | ⟨c2, _ | ⟨c3, _ | ⟨c4, _ | ⟨c5, _ | ⟨c6, _ | ⟨c7, _ | ⟨c8, _ | ⟨c9, _ | ⟨c10, rest⟩⟩⟩⟩⟩⟩⟩⟩⟩ <;>
    simp [startsDate, Bool.and_eq_true] at h
  all_goals tauto

theorem startsTime_head (c : Char) (cs : List Char) (h : startsTime (c :: cs) = true) :
    c.isDigit = true := by
  rcases cs with _ | ⟨c2, _ | ⟨c3, _ | ⟨c4, _ | ⟨c5, _ | ⟨c6, _ | ⟨c7, _ | ⟨c8, rest⟩⟩⟩⟩⟩⟩⟩ <;>
    simp [startsTime, Bool.and_eq_true] at h
  all_goals tauto

theorem startsHex_head (c : Char) (cs : List Char) (h : startsHex (c :: cs) = true) :
    c.isDigit = true := by
  rcases cs with _ | ⟨c2, _ | ⟨c3, rest⟩⟩ <;> simp [startsHex, Bool.and_eq_true] at h
  rw [h.1.1]
  decide

theorem startsNum_head (c : Char) (cs : List Char) (h : startsNum (c :: cs) = true) :
    c.isDigit = true := h

theorem starts_false_of_noDigit (l : List Char) (hnd : noDigit l)
    (starts : List Char → Bool)
    (hhead : ∀ c cs, starts (c :: cs) = true → c.isDigit = true)
    (hnil : starts [] = false) :
    ∀ t, t <:+ l → starts t = false := by
  intro t ht
  cases t with
  | nil => exact hnil
  | cons c cs =>
    by_cases hs : starts (c :: cs) = true
    · have hc : c ∈ l := ht.subset (by simp)
      have := hnd c hc
      rw [hhead c cs hs] at this
      cases this
    · simpa using hs

theorem subDate_eq_self (l : List Char) (h : noDigit l) : subDate l = l :=
  scanSub_eq_self _ _ _ _ l
    (starts_false_of_noDigit l h startsDate startsDate_head rfl)

theorem subTime_eq_self (l : List Char) (h : noDigit l) : subTime l = l :=
  scanSub_eq_self _ _ _ _ l
    (starts_false_of_noDigit l h startsTime startsTime_head rfl)

theorem subHex_eq_self (l : List Char) (h : noDigit l) : subHex l = l :=
  scanSub_eq_self _ _ _ _ l
    (starts_false_of_noDigit l h startsHex startsHex_head rfl)

theorem subNum_eq_self (l : List Char) (h : noDigit l) : subNum l = l :=
  scanSub_eq_self _ _ _ _ l
    (starts_false_of_noDigit l h startsNum startsNum_head rfl)

theorem noDigit_numTok : noDigit (("<num>").toList) := by
  unfold noDigit
  decide

theorem noDigit_subNum : ∀ n l, l.length ≤ n → noDigit (subNum l) := by
  intro n
  induction n with
  | zero =>
    intro l hl
    have : l = [] := List.length_eq_zero.mp (Nat.le_zero.mp hl)
    subst this
    unfold subNum
    rw [scanSub_nil]
    intro c hc
    simp at hc
  | succ n ih =>
    intro l hl
    cases l with
    | nil =>
      unfold subNum
      rw [scanSub_nil]
      intro c hc
      simp at hc
    | cons x xs =>
      unfold subNum
      rw [scanSub_cons]
      by_cases hs : startsNum (x :: xs) = true
      · rw [if_pos hs]
        intro c hc
        rcases List.mem_append.mp hc with hm | hm
        · exact noDigit_numTok c hm
        · have hlen : (((x :: xs).drop (0 + 1)).dropWhile Char.isDigit).length ≤ n := by
            have h1 := List.Sublist.length_le
              (List.dropWhile_sublist Char.isDigit (l := (x :: xs).drop (0 + 1)))
            have h2 : ((x :: xs).drop (0 + 1)).length = (x :: xs).length - 1 := by
              rw [List.length_drop]
            simp only [List.length_cons] at *
            omega
          exact ih _ hlen c hm
      · rw [if_neg hs]
        intro c hc
        rcases List.mem_cons.mp hc with hm | hm
        · subst hm
          simpa [startsNum] using hs
        · exact ih xs (by simp at hl; omega) c hm

/-! ### Lower-case stability of the pipeline -/

/-- Every character of the list is a fixed point of ASCII lower-casing. -/
def lowerFix (l : List Char) : Prop := ∀ c ∈ l, pyLowerC c = c

theorem lowerFix_pyLower (s : List Char) : lowerFix (pyLower s) := by
  intro c hc
  rcases List.mem_map.mp hc with ⟨d, _, hd⟩
  rw [← hd]
  exact pyLowerC_idem d

theorem pyLower_eq_self (l : List Char) (h : lowerFix l) : pyLower l = l := by
  unfold pyLower
  rw [List.map_congr_left h]
  exact List.map_id _

theorem lowerFix_scanSub (starts : List Char → Bool) (tok : List Char) (k : Nat)
    (p : Char → Bool) (l : List Char) (htok : lowerFix tok) (hl : lowerFix l) :
    lowerFix (scanSub starts tok k p l) := by
  intro c hc
  rcases mem_scanSub starts tok k p l.length l (Nat.le_refl _) c hc with hm | hm
  · exact htok c hm
  · exact hl c hm

theorem noDigit_scanSub (starts : List Char → Bool) (tok : List Char) (k : Nat)
    (p : Char → Bool) (l : List Char) (htok : noDigit tok) (hl : noDigit l) :
    noDigit (scanSub starts tok k p l) := by
  intro c hc
  rcases mem_scanSub starts tok k p l.length l (Nat.le_refl _) c hc with hm | hm
  · exact htok c hm
  · exact hl c hm

theorem lowerFix_dateTok : lowerFix (("<date>").toList) := by
  unfold lowerFix
  decide

theorem lowerFix_timeTok : lowerFix (("<time>").toList) := by
  unfold lowerFix
  decide

theorem lowerFix_hexTok : lowerFix (("<hex>").toList) := by
  unfold lowerFix
  decide

theorem lowerFix_numTok : lowerFix (("<num>").toList) := by
  unfold lowerFix
  decide

theorem lowerFix_pathTok : lowerFix (("<path>").toList) := by
  unfold lowerFix
  decide

theorem noDigit_pathTok : noDigit (("<path>").toList) := by
  unfold noDigit
  decide

/-! ### Idempotence of the drive-path substitution -/

theorem pathTok_chars : ("<path>").toList = ['<', 'p', 'a', 't', 'h', '>'] := rfl

theorem startsPath_false_alpha (c : Char) (l : List Char) (h : isAsciiAlpha c = false) :
    startsPath (c :: l) = false := by
  rcases l with _ | ⟨x, _ | ⟨y, _ | ⟨d, r⟩⟩⟩ <;> simp [startsPath, h]

theorem startsPath_false_colon (c x : Char) (l : List Char) (h : x ≠ ':') :
    startsPath (c :: x :: l) = false := by
  rcases l with _ | ⟨y, _ | ⟨d, r⟩⟩ <;> simp [startsPath, h]

theorem startsPath_false_backslash (c x y : Char) (l : List Char) (h : y ≠ '\\') :
    startsPath (c :: x :: y :: l) = false := by
  rcases l with _ | ⟨d, r⟩ <;> simp [startsPath, h]

theorem startsPath_false_space (c x y d : Char) (l : List Char) (h : isPySpace d = true) :
    startsPath (c :: x :: y :: d :: l) = false := by
  simp [startsPath, h]

theorem space_not_alpha (d : Char) (h : isPySpace d = true) : isAsciiAlpha d = false := by
  simp only [isPySpace, Bool.or_eq_true, beq_iff_eq] at h
  rcases h with ((((h | h) | h) | h) | h) | h <;> subst h <;> decide

/-- No suffix of the list begins a drive-path match. -/
def noPM (l : List Char) : Prop := ∀ t, t <:+ l → startsPath t = false

theorem noPM_nil : noPM [] := by
  intro t ht
  rw [List.suffix_nil.mp ht]
  rfl

theorem noPM_cons (x : Char) (xs : List Char) :
    noPM (x :: xs) ↔ startsPath (x :: xs) = false ∧ noPM xs := by
  constructor
  · intro h
    exact ⟨h _ (List.suffix_refl _), fun t ht => h t (ht.trans (List.suffix_cons x xs))⟩
  · rintro ⟨h1, h2⟩ t ht
    rcases List.suffix_cons_iff.mp ht with he | hsuf
    · rw [he]
      exact h1
    · exact h2 t hsuf

theorem subPath_nil : subPath [] = [] := scanSub_nil _ _ _ _

theorem subPath_cons_pos (c : Char) (cs : List Char) (h : startsPath (c :: cs) = true) :
    subPath (c :: cs) =
      ("<path>").toList ++
        subPath (((c :: cs).drop 4).dropWhile (fun z => !(isPySpace z))) := by
  unfold subPath
  rw [scanSub_cons, if_pos h]

theorem subPath_cons_neg (c : Char) (cs : List Char) (h : startsPath (c :: cs) = false) :
    subPath (c :: cs) = c :: subPath cs := by
  unfold subPath
  rw [scanSub_cons, if_neg (by rw [h]; simp)]

theorem noPM_pathTok_append (X : List Char) (h : noPM X) : noPM (("<path>").toList ++ X) := by
  rw [pathTok_chars]
  simp only [List.cons_append, List.nil_append]
  rw [noPM_cons, noPM_cons, noPM_cons, noPM_cons, noPM_cons, noPM_cons]
  refine ⟨?_, ?_, ?_, ?_, ?_, ?_, h⟩
  · exact startsPath_false_alpha _ _ (by decide)
  · exact startsPath_false_colon _ _ _ (by decide)
  · exact startsPath_false_colon _ _ _ (by decide)
  · exact startsPath_false_colon _ _ _ (by decide)
  · exact startsPath_false_colon _ _ _ (by decide)
  · exact startsPath_false_alpha _ _ (by decide)

theorem noPM_subPath : ∀ n l, l.length ≤ n → noPM (subPath l) := by
  intro n
  induction n with
  | zero =>
    intro l hl
    have : l = [] := List.length_eq_zero.mp (Nat.le_zero.mp hl)
    subst this
    rw [subPath_nil]
    exact noPM_nil
  | succ n ih =>
    intro l hl
    cases l with
    | nil =>
      rw [subPath_nil]
      exact noPM_nil
    | cons c cs =>
      by_cases hs : startsPath (c :: cs) = true
      · rw [subPath_cons_pos _ _ hs]
        apply noPM_pathTok_append
        apply ih
        have h1 := List.Sublist.length_le
          (List.dropWhile_sublist (fun z => !(isPySpace z)) (l := (c :: cs).drop 4))
        have h2 : ((c :: cs).drop 4).length = (c :: cs).length - 4 := by
          rw [List.length_drop]
        simp only [List.length_cons] at *
        omega
      · simp only [Bool.not_eq_true] at hs
        rw [subPath_cons_neg _ _ hs]
        rw [noPM_cons]
        refine ⟨?_, ih cs (by simp only [List.length_cons] at hl; omega)⟩
        cases cs with
        | nil =>
          rw [subPath_nil]
          rfl
        | cons x cs' =>
          by_cases hx : startsPath (x :: cs') = true
          · rw [subPath_cons_pos _ _ hx, pathTok_chars]
            simp only [List.cons_append, List.nil_append]
            exact startsPath_false_colon _ _ _ (by decide)
          · simp only [Bool.not_eq_true] at hx
            rw [subPath_cons_neg _ _ hx]
            by_cases hca : isAsciiAlpha c = true
            · by_cases hxc : x = ':'
              · subst hxc
                cases cs' with
                | nil =>
                  rw [subPath_nil]
                  rfl
                | cons y cs'' =>
                  by_cases hy : startsPath (y :: cs'') = true
                  · rw [subPath_cons_pos _ _ hy, pathTok_chars]
                    simp only [List.cons_append, List.nil_append]
                    exact startsPath_false_backslash _ _ _ _ (by decide)
                  · simp only [Bool.not_eq_true] at hy
                    rw [subPath_cons_neg _ _ hy]
                    by_cases hyb : y = '\\'
                    · subst hyb
                      cases cs'' with
                      | nil =>
                        rw [subPath_nil]
                        rfl
                      | cons d cs''' =>
                        have hd : isPySpace d = true := by
                          simpa [startsPath, hca] using hs
                        have hda : isAsciiAlpha d = false := space_not_alpha d hd
                        rw [subPath_cons_neg _ _ (startsPath_false_alpha _ _ hda)]
                        exact startsPath_false_space _ _ _ _ _ hd
                    · exact startsPath_false_backslash _ _ _ _ hyb
              · exact startsPath_false_colon _ _ _ hxc
            · simp only [Bool.not_eq_true] at hca
              exact startsPath_false_alpha _ _ hca

theorem subPath_idem (l : List Char) : subPath (subPath l) = subPath l :=
  scanSub_eq_self _ _ _ _ (subPath l) (noPM_subPath l.length l (Nat.le_refl _))

theorem lowerFix_normalizeMsg (s : List Char) : lowerFix (normalizeMsg s) := by
  unfold normalizeMsg subPath subNum subHex subTime subDate
  apply lowerFix_scanSub _ _ _ _ _ lowerFix_pathTok
  apply lowerFix_scanSub _ _ _ _ _ lowerFix_numTok
  apply lowerFix_scanSub _ _ _ _ _ lowerFix_hexTok
  apply lowerFix_scanSub _ _ _ _ _ lowerFix_timeTok
  apply lowerFix_scanSub _ _ _ _ _ lowerFix_dateTok
  exact lowerFix_pyLower s

theorem noDigit_normalizeMsg (s : List Char) : noDigit (normalizeMsg s) := by
  unfold normalizeMsg subPath
  apply noDigit_scanSub _ _ _ _ _ noDigit_pathTok
  exact noDigit_subNum _ _ (Nat.le_refl _)

/-- C5. The message-normalisation step of fingerprinting (lower-casing, then
masking dates, times, hexadecimal literals, digit runs and drive-path
substrings with placeholder tokens, in the order `_get_issue_signature`
applies them) is idempotent: normalising an already-normalised message
yields the same string. -/
theorem normalize_message_idempotent (s : List Char) :
    normalizeMsg (normalizeMsg s) = normalizeMsg s := by
  have hfix : lowerFix (normalizeMsg s) := lowerFix_normalizeMsg s
  have hnd : noDigit (normalizeMsg s) := noDigit_normalizeMsg s
  show subPath (subNum (subHex (subTime (subDate (pyLower (normalizeMsg s)))))) = normalizeMsg s
  rw [pyLower_eq_self _ hfix]
  rw [subDate_eq_self _ hnd, subTime_eq_self _ hnd, subHex_eq_self _ hnd,
    subNum_eq_self _ hnd]
  show subPath (normalizeMsg s) = normalizeMsg s
  unfold normalizeMsg
  exact subPath_idem _

/-! ### Data model (`models.py`) and the issue detector (`issue_detector.py`) -/

/-- A Python `datetime` value, by its components. -/
structure PyDateTime where
  year : Nat
  month : Nat
  day : Nat
  hour : Nat
  minute : Nat
  second : Nat
  microsecond : Nat
deriving DecidableEq

/-- The `LogEntry` dataclass of `models.py`. -/
structure LogEntry where
  event_number : Int
  level : List Char
  source : List Char
  event_id : Int
  timestamp : PyDateTime
  message : List Char
  log_type : List Char
  user_id : List Char
  system_name : List Char
  session_timestamp : List Char
deriving DecidableEq

/-- The string `_get_issue_signature` hashes: event id, lower-cased stripped
source, lower-cased level and the first 200 characters of the normalised
message, joined with a bar separator. -/
def sigString (e : LogEntry) : List Char :=
  intStr e.event_id ++ [ '|' ] ++ pyStrip (pyLower e.source) ++ [ '|' ] ++
    pyLower e.level ++ [ '|' ] ++ (normalizeMsg e.message).take 200

/-- The fingerprint of `_get_issue_signature`; the MD5 hex digest is the
abstract function `h` applied to the signature string. -/
def fingerprint (h : List Char → List Char) (e : LogEntry) : List Char := h (sigString e)

/-- The three level strings that `detect_issues` keeps (case-sensitive). -/
def significantLevels : List (List Char) :=
  [("Warning").toList, ("Error").toList, ("Critical").toList]

/-- The significance filter at the top of `detect_issues`. -/
def significant (l : List LogEntry) : List LogEntry :=
  l.filter (fun e => decide (e.level ∈ significantLevels))

/-- Deduplication keeping the first occurrence of each element, as a Python
`dict` keyed in insertion order does (`seen` accumulates prior elements). -/
def firstDedupGo [DecidableEq α] : List α → List α → List α
  | _, [] => []
  | seen, a :: l =>
    if a ∈ seen then firstDedupGo seen l else a :: firstDedupGo (a :: seen) l

/-- First-occurrence deduplication of a list. -/
def firstDedup [DecidableEq α] (l : List α) : List α := firstDedupGo [] l

/-- The group of significant entries sharing the fingerprint `k`, in input
order, as `detect_issues` accumulates it in `issue_groups`. -/
def issueGroup (h : List Char → List Char) (l : List LogEntry) (k : List Char) :
    List LogEntry :=
  (significant l).filter (fun e => decide (fingerprint h e = k))

/-- Split a string into its newline-separated lines (a regex dot never
matches a newline, so an unanchored pattern match lives inside one line). -/
def splitLinesGo : List Char → List Char → List (List Char)
  | acc, [] => [acc.reverse]
  | acc, c :: cs => if c = '\n' then acc.reverse :: splitLinesGo [] cs else splitLinesGo (c :: acc) cs

def splitLines (l : List Char) : List (List Char) := splitLinesGo [] l

/-- Drop characters up to and including the first occurrence of `w`; `none`
when `w` does not occur. -/
def dropThrough (w : List Char) : List Char → Option (List Char)
  | [] => if w = [] then some [] else none
  | c :: cs => if w.isPrefixOf (c :: cs) then some ((c :: cs).drop w.length) else dropThrough w cs

/-- Do the literals occur in the given order (with arbitrary gaps)? -/
def containsInOrder : List (List Char) → List Char → Bool
  | [], _ => true
  | w :: ws, l =>
    match dropThrough w l with
    | some r => containsInOrder ws r
    | none => false

/-- Search semantics of the rule-table regexes.  Every pattern in
`_load_issue_patterns` is an alternation of branches, each branch a sequence
of literals separated by a greedy dot-star; `re.search` succeeds iff some
branch has its literals in order inside a single line. -/
def regexSearch (branches : List (List (List Char))) (msg : List Char) : Bool :=
  branches.any (fun br => (splitLines msg).any (fun ln => containsInOrder br ln))

/-- Python substring containment (the `in` operator on strings). -/
def infixOfB (needle : List Char) : List Char → Bool
  | [] => needle.isEmpty
  | c :: t => needle.isPrefixOf (c :: t) || infixOfB needle t

/-- One entry of `_load_issue_patterns`: the raw pattern string (used by the
literal "event id N" check), its branch decomposition (used by the regex
check), the keyword list, and the category / severity / root-cause /
solution payload. -/
structure IssueRule where
  category : List Char
  patternStr : List Char
  branches : List (List (List Char))
  severity : Option (List Char)
  keywords : List (List Char)
  root_cause : List Char
  solution : List Char
deriving DecidableEq

/-- The ordered rule table of `_load_issue_patterns`, with each regex pattern
kept verbatim in `patternStr` and decomposed into its alternation branches
(literals separated by dot-star, lower-cased as `re.IGNORECASE` search over a
lower-cased message demands). -/
def issuePatterns : List IssueRule :=
  [{ category := ("Network Connectivity").toList,
     patternStr := ("event id 4042|ncsi|capability.*change|media disconnect").toList,
     branches := [[("event id 4042").toList],
       [("ncsi").toList],
       [("capability").toList, ("change").toList],
       [("media disconnect").toList]],
     severity := some (("Error").toList),
     keywords := [("network").toList, ("ncsi").toList, ("connectivity").toList, ("capability").toList, ("media disconnect").toList],
     root_cause := ("Network capability changed or media disconnection detected. This indicates the device lost connectivity, possibly due to wireless signal issues, network adapter problems, or media disconnect events.").toList,
     solution := ("Check network adapter status in Device Manager, update network drivers, verify WiFi signal strength, restart network adapter or check physical network connection").toList },
   { category := ("Network Connectivity").toList,
     patternStr := ("event id 4006|no.*network.*connectivity|connectivity.*lost").toList,
     branches := [[("event id 4006").toList],
       [("no").toList, ("network").toList, ("connectivity").toList],
       [("connectivity").toList, ("lost").toList]],
     severity := some (("Critical").toList),
     keywords := [("network").toList, ("no connectivity").toList, ("disconnected").toList, ("internet").toList],
     root_cause := ("Network connectivity completely lost. NCSI (Network Connectivity Status Indicator) detected no network access, indicating either no physical connection or complete network isolation.").toList,
     solution := ("Verify physical network connection, check network adapter hardware, restart network adapter, run network troubleshooter, verify network configuration and IP settings").toList },
   { category := ("Network Connectivity").toList,
     patternStr := ("event id 4005|local.*network.*only|limited.*network").toList,
     branches := [[("event id 4005").toList],
       [("local").toList, ("network").toList, ("only").toList],
       [("limited").toList, ("network").toList]],
     severity := some (("Warning").toList),
     keywords := [("local network").toList, ("limited connectivity").toList, ("no internet").toList],
     root_cause := ("Device has local network connectivity but no internet access. DNS probes are failing or the gateway is unreachable, preventing internet connectivity.").toList,
     solution := ("Check DNS settings (try 8.8.8.8 or 1.1.1.1), verify gateway is reachable, check ISP connection, test DNS resolution with nslookup, restart modem/router").toList },
   { category := ("Network Connectivity").toList,
     patternStr := ("event id 4003|captive portal|hotspot.*detected").toList,
     branches := [[("event id 4003").toList],
       [("captive portal").toList],
       [("hotspot").toList, ("detected").toList]],
     severity := some (("Warning").toList),
     keywords := [("captive portal").toList, ("hotspot").toList, ("authentication required").toList],
     root_cause := ("Device detected a captive portal network (like hotel WiFi, airport WiFi, or public hotspot) requiring authentication. HTTP probe failed due to redirection to login page.").toList,
     solution := ("Open web browser to authenticate with captive portal, accept terms of service, verify WiFi SSID is correct, check for proxy requirements").toList },
   { category := ("Network Connectivity").toList,
     patternStr := ("event id 507|exit.*standby|wake.*sleep|resume.*hibernation").toList,
     branches := [[("event id 507").toList],
       [("exit").toList, ("standby").toList],
       [("wake").toList, ("sleep").toList],
       [("resume").toList, ("hibernation").toList]],
     severity := some (("Warning").toList),
     keywords := [("wake from standby").toList, ("resume").toList, ("sleep").toList, ("connected standby").toList],
     root_cause := ("Device waking from sleep/standby. Network connectivity may be temporarily unavailable during resume as network adapters reinitialize.").toList,
     solution := ("Wait 10-15 seconds for network adapter to reinitialize after wake, check network adapter power management settings, disable selective suspend for network adapter in Power Options").toList },
   { category := ("Network Connectivity").toList,
     patternStr := ("event id 8002|wlan.*autoconnect.*fail|wireless.*connect.*fail").toList,
     branches := [[("event id 8002").toList],
       [("wlan").toList, ("autoconnect").toList, ("fail").toList],
       [("wireless").toList, ("connect").toList, ("fail").toList]],
     severity := some (("Error").toList),
     keywords := [("wlan").toList, ("autoconnect").toList, ("wireless").toList, ("wifi").toList, ("connection fail").toList],
     root_cause := ("Wireless auto-connect failed. The device attempted to automatically connect to a configured WiFi network but the connection failed, possibly due to authentication, network unavailability, or profile issues.").toList,
     solution := ("Verify WiFi network is broadcasting SSID, check WiFi password, remove and re-add WiFi profile, update wireless adapter driver, restart WiFi adapter").toList },
   { category := ("Network Connectivity").toList,
     patternStr := ("event id 11006|wlan.*security.*fail|wifi.*authentication.*fail|security.*error").toList,
     branches := [[("event id 11006").toList],
       [("wlan").toList, ("security").toList, ("fail").toList],
       [("wifi").toList, ("authentication").toList, ("fail").toList],
       [("security").toList, ("error").toList]],
     severity := some (("Error").toList),
     keywords := [("wlan security").toList, ("authentication").toList, ("wifi password").toList, ("802.1x").toList, ("eap").toList],
     root_cause := ("WiFi security authentication failed. The device failed to establish a secure connection to the WiFi network due to incorrect credentials, security protocol mismatch, certificate issues, or 802.1X/EAP failures.").toList,
     solution := ("Verify WiFi password is correct, check security type matches network settings (WPA2 vs WPA3), update wireless driver, remove expired certificates, check RADIUS server if using 802.1X").toList },
   { category := ("Network Connectivity").toList,
     patternStr := ("dns.*fail|dns.*resolv|activehttp.*probe.*fail").toList,
     branches := [[("dns").toList, ("fail").toList],
       [("dns").toList, ("resolv").toList],
       [("activehttp").toList, ("probe").toList, ("fail").toList]],
     severity := some (("Error").toList),
     keywords := [("dns").toList, ("resolution").toList, ("probe failed").toList, ("msftconnecttest").toList],
     root_cause := ("DNS resolution failed or HTTP connectivity probe failed. Network connectivity tests are unable to reach internet services, indicating DNS issues or network path problems.").toList,
     solution := ("Test DNS resolution (nslookup google.com), change DNS servers to 8.8.8.8 or 1.1.1.1, flush DNS cache (ipconfig /flushdns), check proxy settings, verify firewall allows DNS/HTTP").toList },
   { category := ("Network Connectivity").toList,
     patternStr := ("arp.*fail|gateway.*unreachable|l2.*reachability").toList,
     branches := [[("arp").toList, ("fail").toList],
       [("gateway").toList, ("unreachable").toList],
       [("l2").toList, ("reachability").toList]],
     severity := some (("Error").toList),
     keywords := [("arp").toList, ("gateway").toList, ("layer 2").toList, ("reachability").toList, ("duplicate ip").toList],
     root_cause := ("Layer 2 (ARP) probe failed indicating reachability issues with gateway or next hop. This suggests WiFi instability, duplicate IP addresses, or network infrastructure problems.").toList,
     solution := ("Check WiFi signal strength and roaming, release and renew IP address (ipconfig /release /renew), check for duplicate IP addresses on network, restart WiFi router, check for WiFi interference").toList },
   { category := ("Service Management").toList,
     patternStr := ("start type.*service.*changed").toList,
     branches := [[("start type").toList, ("service").toList, ("changed").toList]],
     severity := some (("Warning").toList),
     keywords := [("service").toList, ("start type").toList, ("changed").toList],
     root_cause := ("Windows service configuration is being frequently modified, possibly by system updates or third-party software").toList,
     solution := ("Review service dependencies and check for conflicting software that may be changing service configurations").toList },
   { category := ("Disk Issues").toList,
     patternStr := ("disk.*error|bad.*sector|read.*fail|write.*fail").toList,
     branches := [[("disk").toList, ("error").toList],
       [("bad").toList, ("sector").toList],
       [("read").toList, ("fail").toList],
       [("write").toList, ("fail").toList]],
     severity := some (("Critical").toList),
     keywords := [("disk").toList, ("error").toList, ("bad").toList, ("sector").toList, ("read fail").toList, ("write fail").toList],
     root_cause := ("Hard disk showing signs of failure or file system corruption").toList,
     solution := ("Run CHKDSK utility, backup critical data immediately, consider disk replacement if errors persist").toList },
   { category := ("Application Crash").toList,
     patternStr := ("application.*crash|application.*fault|exception.*0x").toList,
     branches := [[("application").toList, ("crash").toList],
       [("application").toList, ("fault").toList],
       [("exception").toList, ("0x").toList]],
     severity := some (("Error").toList),
     keywords := [("crash").toList, ("fault").toList, ("exception").toList, ("terminated unexpectedly").toList],
     root_cause := ("Application encountering unhandled exceptions or memory access violations").toList,
     solution := ("Update application to latest version, check for compatibility issues, review application logs for specific error codes").toList },
   { category := ("Driver Issues").toList,
     patternStr := ("driver.*fail|driver.*not.*load|device.*not.*start").toList,
     branches := [[("driver").toList, ("fail").toList],
       [("driver").toList, ("not").toList, ("load").toList],
       [("device").toList, ("not").toList, ("start").toList]],
     severity := some (("Error").toList),
     keywords := [("driver").toList, ("fail").toList, ("not load").toList, ("device").toList, ("not start").toList],
     root_cause := ("Device driver incompatibility or corruption preventing proper device initialization").toList,
     solution := ("Update or reinstall device drivers, check Device Manager for conflicts, verify driver digital signature").toList },
   { category := ("Memory Issues").toList,
     patternStr := ("out of memory|memory.*corrupt|page fault|insufficient.*memory").toList,
     branches := [[("out of memory").toList],
       [("memory").toList, ("corrupt").toList],
       [("page fault").toList],
       [("insufficient").toList, ("memory").toList]],
     severity := some (("Critical").toList),
     keywords := [("out of memory").toList, ("memory corrupt").toList, ("page fault").toList, ("insufficient memory").toList],
     root_cause := ("System running low on available memory or experiencing memory corruption").toList,
     solution := ("Close unnecessary applications, add more RAM, run Windows Memory Diagnostic tool, check for memory leaks").toList },
   { category := ("Security/Authentication").toList,
     patternStr := ("login.*fail|authentication.*fail|access.*denied|credential.*invalid").toList,
     branches := [[("login").toList, ("fail").toList],
       [("authentication").toList, ("fail").toList],
       [("access").toList, ("denied").toList],
       [("credential").toList, ("invalid").toList]],
     severity := some (("Warning").toList),
     keywords := [("login fail").toList, ("authentication fail").toList, ("access denied").toList, ("credential invalid").toList],
     root_cause := ("User authentication failures or permission issues").toList,
     solution := ("Verify user credentials, check account lockout policies, review access permissions, reset password if needed").toList },
   { category := ("System Performance").toList,
     patternStr := ("timeout|response.*slow|high.*cpu|performance.*degrad").toList,
     branches := [[("timeout").toList],
       [("response").toList, ("slow").toList],
       [("high").toList, ("cpu").toList],
       [("performance").toList, ("degrad").toList]],
     severity := some (("Warning").toList),
     keywords := [("timeout").toList, ("slow").toList, ("high cpu").toList, ("performance").toList, ("degrad").toList],
     root_cause := ("System experiencing performance bottlenecks or resource exhaustion").toList,
     solution := ("Check Task Manager for resource usage, disable startup programs, scan for malware, optimize system settings").toList },
   { category := ("Windows Update").toList,
     patternStr := ("update.*fail|installation.*fail|windows update").toList,
     branches := [[("update").toList, ("fail").toList],
       [("installation").toList, ("fail").toList],
       [("windows update").toList]],
     severity := some (("Warning").toList),
     keywords := [("update fail").toList, ("installation fail").toList, ("windows update").toList],
     root_cause := ("Windows Update service experiencing issues or insufficient disk space").toList,
     solution := ("Run Windows Update Troubleshooter, clear Software Distribution folder, ensure sufficient disk space").toList },
   { category := ("Event Description Missing").toList,
     patternStr := ("description.*Event ID.*could not be found").toList,
     branches := [[("description").toList, ("event id").toList, ("could not be found").toList]],
     severity := some (("Information").toList),
     keywords := [("description").toList, ("could not be found").toList],
     root_cause := ("Event message DLL not registered or missing for the event source").toList,
     solution := ("This is typically informational and doesn\x27t indicate a problem. The event data is still recorded.").toList }]

/-- The fallback source/log-type substring lookup table of
`_categorize_issue`, in insertion order. -/
def categoryMap : List (List Char × List Char) :=
  [(("System").toList, ("System Configuration").toList),
   (("Application").toList, ("Application Issue").toList),
   (("Network").toList, ("Network Issue").toList),
   (("Driver").toList, ("Driver Issue").toList),
   (("Security").toList, ("Security Issue").toList),
   (("wlan").toList, ("Network Connectivity").toList),
   (("ncsi").toList, ("Network Connectivity").toList),
   (("kernel-power").toList, ("System Issues").toList),
   (("dns").toList, ("Network Connectivity").toList)]

/-- The four-way match test that `_categorize_issue` applies to each rule, in
its short-circuit order: regex search on the lower-cased message, at least two
keywords in the message, the literal "event id N" inside the raw pattern
string (N being the digits that a digit-run search finds in `str(event_id)`,
that is the digits of its absolute value), or at least two keywords in the
lower-cased source or log type. -/
def ruleMatches (e : LogEntry) (r : IssueRule) : Bool :=
  regexSearch r.branches (pyLower e.message) ||
    decide (2 ≤ r.keywords.countP (fun kw => infixOfB (pyLower kw) (pyLower e.message))) ||
    infixOfB (("event id ").toList ++ natStr e.event_id.natAbs) r.patternStr ||
    decide (2 ≤ r.keywords.countP (fun kw =>
      infixOfB (pyLower kw) (pyLower e.source) || infixOfB (pyLower kw) (pyLower e.log_type)))

/-- Root-cause text of the final fallback of `_categorize_issue`. -/
def fallbackRootCause : List Char :=
  ("Issue requires further investigation based on event details and system context").toList

/-- Solution text of the final fallback of `_categorize_issue`. -/
def fallbackSolution : List Char :=
  ("Review detailed event information, check related system logs, consult vendor documentation for specific event ID").toList

/-- The category literal of the last-resort fallback. -/
def uncategorizedCategory : List Char := ("Uncategorized").toList

/-- The `_categorize_issue` method: first matching rule wins; otherwise the
substring lookup over `categoryMap` (lower-cased keys against lower-cased log
type or source); otherwise a case-sensitive dict lookup of the raw log type
with default "Uncategorized"; the fallback severities are `None`. -/
def categorizeIssue (e : LogEntry) :
    List Char × List Char × List Char × Option (List Char) :=
  match issuePatterns.find? (fun r => ruleMatches e r) with
  | some r => (r.category, r.root_cause, r.solution, r.severity)
  | none =>
    let cat :=
      match categoryMap.find? (fun kv =>
          infixOfB (pyLower kv.1) (pyLower e.log_type) ||
            infixOfB (pyLower kv.1) (pyLower e.source)) with
      | some kv => kv.2
      | none => (categoryMap.lookup e.log_type).getD uncategorizedCategory
    (cat, fallbackRootCause, fallbackSolution, none)

/-- The `_generate_issue_description` method: log type, source and the
message truncated to 150 characters with an ellipsis suffix. -/
def generateIssueDescription (e : LogEntry) : List Char :=
  (if 150 < e.message.length then e.message.take 150 ++ ("...").toList else e.message)
    |> fun message => e.log_type ++ (" - ").toList ++ e.source ++ (": ").toList ++ message

/-- The `Issue` dataclass of `models.py`. -/
structure Issue where
  issue_id : List Char
  category : List Char
  severity : List Char
  description : List Char
  pattern : List Char
  affected_users : List (List Char)
  affected_systems : List (List Char)
  occurrences : Nat
  log_entries : List LogEntry
  root_cause : List Char
  solution : List Char
deriving DecidableEq

/-- The `_create_issue_from_entries` method.  `list(set(...))` of user and
system identifiers is modelled as first-occurrence deduplication (CPython
leaves the order of `list(set(...))` unspecified; every property proved below
is insensitive to that order).  `severity or first_entry.level` follows
Python truthiness: a `None` or empty severity falls back to the level of the
representative (first) entry. -/
def createIssueFromEntries (sig : List Char) (entries : List LogEntry) : Option Issue :=
  match entries with
  | [] => none
  | first :: _ =>
    let c := categorizeIssue first
    some
      { issue_id := sig.take 8,
        category := c.1,
        severity :=
          match c.2.2.2 with
          | some s => if s = [] then first.level else s
          | none => first.level,
        description := generateIssueDescription first,
        pattern := ("Event ID: ").toList ++ intStr first.event_id ++
          (", Source: ").toList ++ first.source,
        affected_users := firstDedup (entries.map (fun x => x.user_id)),
        affected_systems := firstDedup (entries.map (fun x => x.system_name)),
        occurrences := entries.length,
        log_entries := entries,
        root_cause := c.2.1,
        solution := c.2.2.1 }

/-- The `detect_issues` method: filter significant entries, group them by
fingerprint in first-occurrence order of the fingerprints (Python dict
insertion order), and build one issue per non-empty group. -/
def detectIssues (h : List Char → List Char) (l : List LogEntry) : List Issue :=
  (firstDedup ((significant l).map (fingerprint h))).filterMap
    (fun k => createIssueFromEntries k (issueGroup h l k))

/-- The `Issue.user_count` property: number of distinct affected users. -/
def userCount (i : Issue) : Nat := (firstDedup i.affected_users).length

/-- The severity ranking dict of `AnalysisReport.get_sorted_issues`, with the
`.get(severity, 4)` default for unrecognised severities. -/
def severityRank (s : List Char) : Int :=
  (([(("Critical").toList, (0 : Int)), (("Error").toList, 1),
     (("Warning").toList, 2), (("Information").toList, 3)]).lookup s).getD 4

/-- The three-component sort key of `get_sorted_issues`. -/
def sortKey (i : Issue) : Int × Int × Int :=
  (-(userCount i : Int), severityRank i.severity, -(i.occurrences : Int))

/-- Lexicographic comparison of sort keys, as Python compares key tuples. -/
def keyLE (x y : Int × Int × Int) : Prop :=
  x.1 < y.1 ∨ (x.1 = y.1 ∧ (x.2.1 < y.2.1 ∨ (x.2.1 = y.2.1 ∧ x.2.2 ≤ y.2.2)))

instance : DecidableRel keyLE := fun x y => by
  unfold keyLE
  infer_instance

/-- Issue comparison by sort key. -/
def issueRel (a b : Issue) : Prop := keyLE (sortKey a) (sortKey b)

instance : DecidableRel issueRel := fun a b => by
  unfold issueRel
  infer_instance

/-- The `AnalysisReport` dataclass of `models.py`. -/
structure AnalysisReport where
  generated_at : PyDateTime
  total_users_analyzed : Nat
  total_systems_analyzed : Nat
  total_logs_processed : Nat
  issues : List Issue

/-- The `get_sorted_issues` method: Python's `sorted` is a stable ascending
sort by key, modelled here by stable insertion sort under `issueRel`. -/
def getSortedIssues (r : AnalysisReport) : List Issue :=
  r.issues.insertionSort issueRel

/-! ### Timestamp normalisation (`LogParser._parse_timestamp`)

Python's `strptime` compiles each format string into a regex whose field
classes allow one- or two-digit numbers with fixed bounds (two-digit
alternatives are tried first, as in the `TimeRE` patterns), requires the
whole input to be consumed, and finally validates the day against the month
via the `datetime` constructor.  The separators make the field split
unambiguous, so performing the constructor check at the end of the single
surviving parse is equivalent. -/

def year4 (l : List Char) : Option (Nat × List Char) :=
  match l with
  | a :: b :: c :: d :: r =>
    if a.isDigit && b.isDigit && c.isDigit && d.isDigit then
      some (1000 * digitVal a + 100 * digitVal b + 10 * digitVal c + digitVal d, r)
    else none
  | _ => none

/-- Candidate parses of a numeric field: the two-digit reading first (regex
alternations list the two-digit branches first), then the one-digit one. -/
def twoOneCands (valid2 : Nat → Bool) (valid1 : Nat → Bool) (l : List Char) :
    List (Nat × List Char) :=
  match l with
  | a :: b :: r =>
    (if a.isDigit && b.isDigit && valid2 (10 * digitVal a + digitVal b) then
      [(10 * digitVal a + digitVal b, r)] else []) ++
    (if a.isDigit && valid1 (digitVal a) then [(digitVal a, b :: r)] else [])
  | [a] => if a.isDigit && valid1 (digitVal a) then [(digitVal a, [])] else []
  | [] => []

/-- Backtracking over field candidates: first candidate whose continuation
succeeds wins, as in regex alternation. -/
def tryCands : List (Nat × List Char) → (Nat → List Char → Option PyDateTime) →
    Option PyDateTime
  | [], _ => none
  | (v, r) :: t, f =>
    match f v r with
    | some d => some d
    | none => tryCands t f

def expectC (c : Char) : List Char → Option (List Char)
  | x :: r => if x = c then some r else none
  | [] => none

/-- One-or-more whitespace, as format-string whitespace matches. -/
def expectWS : List Char → Option (List Char)
  | x :: r => if isPySpace x then some (r.dropWhile isPySpace) else none
  | [] => none

def validMonth2 (n : Nat) : Bool := decide (1 ≤ n) && decide (n ≤ 12)

def validDay2 (n : Nat) : Bool := decide (1 ≤ n) && decide (n ≤ 31)

def validOne (n : Nat) : Bool := decide (1 ≤ n)

def validHour2 (n : Nat) : Bool := decide (n ≤ 23)

def validMinSec2 (n : Nat) : Bool := decide (n ≤ 59)

def anyVal (_ : Nat) : Bool := true

def isLeapYear (y : Nat) : Bool :=
  decide (y % 4 = 0) && (decide (y % 100 ≠ 0) || decide (y % 400 = 0))

def daysInMonth (y m : Nat) : Nat :=
  if m = 2 then (if isLeapYear y then 29 else 28)
  else if m = 4 ∨ m = 6 ∨ m = 9 ∨ m = 11 then 30
  else 31

/-- The `datetime` constructor validation relevant after the regex bounds:
a positive year and a day that exists in the month. -/
def validYMD (y m d : Nat) : Bool :=
  decide (1 ≤ y) && decide (y ≤ 9999) && decide (d ≤ daysInMonth y m)

/-- The shared hour-minute-second tail; with `frac` set it also requires a dot
and one to six fractional-second digits (scaled to microseconds), as the
second and first format strings respectively demand. -/
def strpTimeTail (y m d : Nat) (frac : Bool) (r6 : List Char) : Option PyDateTime :=
  tryCands (twoOneCands validHour2 anyVal r6) (fun hh r7 =>
    match expectC ':' r7 with
    | none => none
    | some r8 =>
      tryCands (twoOneCands validMinSec2 anyVal r8) (fun mi r9 =>
        match expectC ':' r9 with
        | none => none
        | some r10 =>
          tryCands (twoOneCands validMinSec2 anyVal r10) (fun ss r11 =>
            if frac then
              match expectC '.' r11 with
              | none => none
              | some r12 =>
                let ds := r12.takeWhile Char.isDigit
                if decide (1 ≤ ds.length) && decide (ds.length ≤ 6) &&
                    (r12.drop ds.length).isEmpty && validYMD y m d then
                  some ⟨y, m, d, hh, mi, ss, digitsVal ds * 10 ^ (6 - ds.length)⟩
                else none
            else if r11.isEmpty && validYMD y m d then
              some ⟨y, m, d, hh, mi, ss, 0⟩
            else none)))

/-- Python `strptime` against a year-month-day date then the time tail. -/
def strpYmd (frac : Bool) (l : List Char) : Option PyDateTime :=
  match year4 l with
  | none => none
  | some (y, r1) =>
    match expectC '-' r1 with
    | none => none
    | some r2 =>
      tryCands (twoOneCands validMonth2 validOne r2) (fun m r3 =>
        match expectC '-' r3 with
        | none => none
        | some r4 =>
          tryCands (twoOneCands validDay2 validOne r4) (fun d r5 =>
            match expectWS r5 with
            | none => none
            | some r6 => strpTimeTail y m d frac r6))

/-- Python `strptime` against the US-style month/day/year date then the time
tail. -/
def strpMdy (l : List Char) : Option PyDateTime :=
  tryCands (twoOneCands validMonth2 validOne l) (fun m r1 =>
    match expectC '/' r1 with
    | none => none
    | some r2 =>
      tryCands (twoOneCands validDay2 validOne r2) (fun d r3 =>
        match expectC '/' r3 with
        | none => none
        | some r4 =>
          match year4 r4 with
          | none => none
          | some (y, r5) =>
            match expectWS r5 with
            | none => none
            | some r6 => strpTimeTail y m d false r6))

/-- The three format strings of `_parse_timestamp`, in source order. -/
inductive TsFmt where
  | ymdHMS
  | ymdHMSf
  | mdyHMS
deriving DecidableEq

def strptime (s : List Char) : TsFmt → Option PyDateTime
  | .ymdHMS => strpYmd false s
  | .ymdHMSf => strpYmd true s
  | .mdyHMS => strpMdy s

def tsFormats : List TsFmt := [.ymdHMS, .ymdHMSf, .mdyHMS]

/-- The format loop of `_parse_timestamp`: return the first successful parse,
catching the `ValueError` of a failed one and falling through; when every
format fails, return the current wall-clock time `now`. -/
def tsGo (now : PyDateTime) (s : List Char) : List TsFmt → PyDateTime
  | [] => now
  | f :: fs =>
    match strptime s f with
    | some d => d
    | none => tsGo now s fs

/-- The `_parse_timestamp` method.  It is a total function: the only failure
mode of each `strptime` attempt is the caught `ValueError`, so no exception
reaches the caller. -/
def parseTimestamp (now : PyDateTime) (s : List Char) : PyDateTime := tsGo now s tsFormats

/-! ### Text-log match conversion (`LogParser._parse_text_log_file`) -/

/-- Python `int(str)` on a string: surrounding whitespace then an optional
sign and a non-empty digit run (`ValueError` is `none`). -/
def pyIntOf (s : List Char) : Option Int :=
  match pyStrip s with
  | '-' :: ds => if ds.isEmpty || !(ds.all Char.isDigit) then none else some (-(digitsVal ds : Int))
  | '+' :: ds => if ds.isEmpty || !(ds.all Char.isDigit) then none else some (digitsVal ds : Int)
  | ds => if ds.isEmpty || !(ds.all Char.isDigit) then none else some (digitsVal ds : Int)

/-- Python `s or d` on strings: an empty (falsy) string yields the default. -/
def pyOrStr (s d : List Char) : List Char := if s.isEmpty then d else s

/-- Python `g or d` where `g` is an optional regex group: `None` and the
empty string are falsy. -/
def pyOrOptStr (g : Option (List Char)) (d : List Char) : List Char :=
  match g with
  | none => d
  | some v => if v.isEmpty then d else v

/-- Python `g.strip()` on an optional group: calling `.strip()` on `None`
raises `AttributeError`, which the per-match handler turns into a skip;
`none` here models that raised exception. -/
def stripOpt (g : Option (List Char)) : Option (List Char) := g.map pyStrip

/-- The session context a parsed file inherits. -/
structure ParseCtx where
  log_type : List Char
  user_id : List Char
  system_name : List Char
  session_timestamp : List Char
deriving DecidableEq

/-- The capture groups of the rich ("actual") pattern: event number, time,
level, source, event id, category, message — all always captured. -/
structure ActualGroups where
  g0 : List Char
  g1 : List Char
  g2 : List Char
  g3 : List Char
  g4 : List Char
  g5 : List Char
  g6 : List Char
deriving DecidableEq

/-- The capture groups of the multi-line pattern: event number and message
always capture; level, source, event id and time are optional groups that
are `None` when their line is absent. -/
structure MultiGroups where
  g0 : List Char
  g1 : Option (List Char)
  g2 : Option (List Char)
  g3 : Option (List Char)
  g4 : Option (List Char)
  g5 : List Char
deriving DecidableEq

/-- The capture groups of the single-line pattern: all six always capture. -/
structure InlineGroups where
  g0 : List Char
  g1 : List Char
  g2 : List Char
  g3 : List Char
  g4 : List Char
  g5 : List Char
deriving DecidableEq

/-- Conversion of one rich-format match into a `LogEntry` (the
`format_used == "actual"` branch of the per-match loop); `none` models a
raised exception caught by the per-match handler, which skips the match. -/
def convertActual (now : PyDateTime) (ctx : ParseCtx) (g : ActualGroups) : Option LogEntry :=
  match pyIntOf g.g0 with
  | none => none
  | some event_num =>
    let timestamp_str := pyStrip (pyOrStr g.g1 [])
    let level := pyStrip (pyOrStr g.g2 (("Information").toList))
    let source := pyStrip (pyOrStr g.g3 (("Unknown").toList))
    match (if g.g4.isEmpty then some (0 : Int) else pyIntOf g.g4) with
    | none => none
    | some event_id =>
      let message := pyStrip (pyOrStr g.g6 [])
      let timestamp := if timestamp_str.isEmpty then now else parseTimestamp now timestamp_str
      some
        { event_number := event_num, level := level, source := source,
          event_id := event_id, timestamp := timestamp, message := message,
          log_type := ctx.log_type, user_id := ctx.user_id,
          system_name := ctx.system_name, session_timestamp := ctx.session_timestamp }

/-- Conversion of one multi-line-format match into a `LogEntry` (the shared
non-"actual" branch of the per-match loop, lines 119-128 of
`log_parser.py`): the level defaults through Python `or`, a missing event id
group defaults to 0, but `groups[4].strip()` and `groups[2].strip()` raise
`AttributeError` on a `None` group, so a match with a missing Time or Source
line is skipped (`none`). -/
def convertLoose (now : PyDateTime) (ctx : ParseCtx) (g : MultiGroups) : Option LogEntry :=
  match pyIntOf g.g0 with
  | none => none
  | some event_num =>
    let level := pyStrip (pyOrOptStr g.g1 (("Information").toList))
    match stripOpt g.g4 with
    | none => none
    | some timestamp_str =>
      match stripOpt g.g2 with
      | none => none
      | some source =>
        match
          (match g.g3 with
           | none => some (0 : Int)
           | some s => if s.isEmpty then some (0 : Int) else pyIntOf s) with
        | none => none
        | some event_id =>
          let message := pyStrip g.g5
          let timestamp := if timestamp_str.isEmpty then now else parseTimestamp now timestamp_str
          some
            { event_number := event_num, level := level, source := source,
              event_id := event_id, timestamp := timestamp, message := message,
              log_type := ctx.log_type, user_id := ctx.user_id,
              system_name := ctx.system_name, session_timestamp := ctx.session_timestamp }

/-- Conversion of one single-line-format match: the code runs the same lines
as the multi-line branch over a six-tuple of always-present groups. -/
def convertInlineG (now : PyDateTime) (ctx : ParseCtx) (g : InlineGroups) : Option LogEntry :=
  convertLoose now ctx ⟨g.g0, some g.g1, some g.g2, some g.g3, some g.g4, g.g5⟩

/-- The structural-pattern chain of `_parse_text_log_file`: run the rich
pattern; if it produced no matches run the multi-line pattern; if that also
produced none run the single-line pattern; convert the matches of the chosen
pattern, skipping matches whose conversion raises.  The three pattern
matchers are abstract parameters (the regex engines), applied to the file
content exactly as the source applies `finditer`. -/
def parseTextLog (now : PyDateTime) (ctx : ParseCtx)
    (mA : List Char → List ActualGroups)
    (mM : List Char → List MultiGroups)
    (mI : List Char → List InlineGroups)
    (content : List Char) : List LogEntry :=
  let actual := mA content
  if actual.isEmpty then
    let multi := mM content
    if multi.isEmpty then (mI content).filterMap (convertInlineG now ctx)
    else multi.filterMap (convertLoose now ctx)
  else actual.filterMap (convertActual now ctx)

/-! ### Session discovery (`LogParser.discover_logs`) -/

/-- A file-system node: a plain file or a directory with named children in
`os.listdir` order. -/
inductive FsEntry where
  | file : FsEntry
  | dir : List (List Char × FsEntry) → FsEntry

/-- The `discover_logs` walk: three fixed levels below the root (user, system,
session); at each level non-directories are skipped; every session-level
directory is emitted with its joined path, regardless of its contents. -/
def discoverLogs (base : List Char) (rootEntries : List (List Char × FsEntry)) :
    List (List Char × List Char × List Char × List Char) :=
  rootEntries.flatMap (fun ue =>
    match ue.2 with
    | .file => []
    | .dir sysEntries =>
      sysEntries.flatMap (fun se =>
        match se.2 with
        | .file => []
        | .dir sessEntries =>
          sessEntries.flatMap (fun te =>
            match te.2 with
            | .file => []
            | .dir _ =>
              [(ue.1, se.1, te.1,
                base ++ [ '/' ] ++ ue.1 ++ [ '/' ] ++ se.1 ++ [ '/' ] ++ te.1)])))

/-! ### Helper lemmas about the detector pipeline -/

theorem mem_firstDedupGo [DecidableEq α] :
    ∀ (l seen : List α) (a : α), a ∈ firstDedupGo seen l ↔ a ∈ l ∧ a ∉ seen := by
  intro l
  induction l with
  | nil =>
    intro seen a
    simp [firstDedupGo]
  | cons x xs ih =>
    intro seen a
    by_cases hx : x ∈ seen
    · simp only [firstDedupGo, if_pos hx, ih]
      constructor
      · rintro ⟨h1, h2⟩
        exact ⟨List.mem_cons_of_mem _ h1, h2⟩
      · rintro ⟨h1, h2⟩
        rcases List.mem_cons.mp h1 with he | hm
        · subst he
          exact absurd hx h2
        · exact ⟨hm, h2⟩
    · simp only [firstDedupGo, if_neg hx, List.mem_cons, ih]
      constructor
      · rintro (he | ⟨h1, h2⟩)
        · subst he
          exact ⟨Or.inl rfl, hx⟩
        · exact ⟨Or.inr h1, fun hin => h2 (Or.inr hin)⟩
      · rintro ⟨he | hm, h2⟩
        · exact Or.inl he
        · by_cases hax : a = x
          · exact Or.inl hax
          · right
            refine ⟨hm, fun hin => ?_⟩
            rcases hin with hq | hq
            · exact hax hq
            · exact h2 hq

theorem mem_firstDedup [DecidableEq α] (l : List α) (a : α) :
    a ∈ firstDedup l ↔ a ∈ l := by
  unfold firstDedup
  rw [mem_firstDedupGo]
  simp

theorem nodup_firstDedupGo [DecidableEq α] :
    ∀ (l seen : List α), (firstDedupGo seen l).Nodup := by
  intro l
  induction l with
  | nil =>
    intro seen
    simp [firstDedupGo]
  | cons x xs ih =>
    intro seen
    by_cases hx : x ∈ seen
    · simpa [firstDedupGo, if_pos hx] using ih seen
    · simp only [firstDedupGo, if_neg hx, List.nodup_cons]
      refine ⟨?_, ih (x :: seen)⟩
      intro hmem
      rcases (mem_firstDedupGo xs (x :: seen) x).mp hmem with ⟨_, habs⟩
      exact habs (List.mem_cons_self _ _)

theorem nodup_firstDedup [DecidableEq α] (l : List α) : (firstDedup l).Nodup :=
  nodup_firstDedupGo l []

theorem firstDedup_perm [DecidableEq α] (l1 l2 : List α) (hp : l1.Perm l2) :
    (firstDedup l1).Perm (firstDedup l2) := by
  apply List.perm_of_nodup_nodup_toFinset_eq (nodup_firstDedup l1) (nodup_firstDedup l2)
  ext a
  simp only [List.mem_toFinset, mem_firstDedup]
  exact ⟨fun h => hp.mem_iff.mp h, fun h => hp.mem_iff.mpr h⟩

theorem mem_significant (l : List LogEntry) (e : LogEntry) :
    e ∈ significant l ↔ e ∈ l ∧ e.level ∈ significantLevels := by
  unfold significant
  rw [List.mem_filter]
  simp

theorem mem_issueGroup (h : List Char → List Char) (l : List LogEntry) (k : List Char)
    (e : LogEntry) :
    e ∈ issueGroup h l k ↔ e ∈ significant l ∧ fingerprint h e = k := by
  unfold issueGroup
  rw [List.mem_filter]
  simp

theorem createIssue_none (sig : List Char) : createIssueFromEntries sig [] = none := rfl

theorem createIssue_fields (sig : List Char) (entries : List LogEntry) (i : Issue)
    (h : createIssueFromEntries sig entries = some i) :
    i.issue_id = sig.take 8 ∧ i.log_entries = entries ∧ i.occurrences = entries.length := by
  cases entries with
  | nil => simp [createIssueFromEntries] at h
  | cons first rest =>
    simp only [createIssueFromEntries, Option.some.injEq] at h
    subst h
    exact ⟨rfl, rfl, rfl⟩

theorem createIssue_isSome (sig : List Char) (entries : List LogEntry) (hne : entries ≠ []) :
    ∃ i, createIssueFromEntries sig entries = some i := by
  cases entries with
  | nil => exact absurd rfl hne
  | cons first rest => exact ⟨_, rfl⟩

theorem mem_detectIssues (h : List Char → List Char) (l : List LogEntry) (i : Issue) :
    i ∈ detectIssues h l ↔
      ∃ k ∈ firstDedup ((significant l).map (fingerprint h)),
        createIssueFromEntries k (issueGroup h l k) = some i := by
  unfold detectIssues
  rw [List.mem_filterMap]

/-! ### C1: the event id participates in the fingerprint -/

/-- C1. For two log entries with identical source, level and message (hence
identical normalised message content) but different event ids, the signature
strings built by `_get_issue_signature` differ, and therefore the
fingerprints differ for any injective digest. -/
theorem fingerprint_separates_event_ids (h : List Char → List Char)
    (e1 e2 : LogEntry) (hinj : Function.Injective h)
    (hsrc : e1.source = e2.source) (hlvl : e1.level = e2.level)
    (hmsg : e1.message = e2.message) (hid : e1.event_id ≠ e2.event_id) :
    sigString e1 ≠ sigString e2 ∧ fingerprint h e1 ≠ fingerprint h e2 := by
  have hsig : sigString e1 ≠ sigString e2 := by
    intro he
    unfold sigString at he
    rw [hsrc, hlvl, hmsg] at he
    have h1 := List.append_cancel_right he
    have h2 := List.append_cancel_right h1
    have h3 := List.append_cancel_right h2
    have h4 := List.append_cancel_right h3
    have h5 := List.append_cancel_right h4
    have h6 := List.append_cancel_right h5
    exact hid (intStr_injective h6)
  exact ⟨hsig, fun hfp => hsig (hinj hfp)⟩

def c1entry1 : LogEntry :=
  { event_number := 1, level := ("Error").toList, source := ("Disk").toList,
    event_id := 7, timestamp := ⟨2024, 1, 1, 0, 0, 0, 0⟩,
    message := ("read failed").toList, log_type := ("System").toList,
    user_id := ("u1").toList, system_name := ("s1").toList,
    session_timestamp := ("t1").toList }

def c1entry2 : LogEntry :=
  { event_number := 1, level := ("Error").toList, source := ("Disk").toList,
    event_id := 8, timestamp := ⟨2024, 1, 1, 0, 0, 0, 0⟩,
    message := ("read failed").toList, log_type := ("System").toList,
    user_id := ("u1").toList, system_name := ("s1").toList,
    session_timestamp := ("t1").toList }

theorem fingerprint_separates_event_ids_witness :
    sigString c1entry1 ≠ sigString c1entry2 ∧
      fingerprint id c1entry1 ≠ fingerprint id c1entry2 :=
  fingerprint_separates_event_ids id c1entry1 c1entry2 (fun _ _ hab => hab)
    rfl rfl rfl (by decide)

/-! ### C10: the significance filter is exact and case-sensitive -/

/-- C10. An event in the input list is a member of some issue returned by
`detect_issues` exactly when its level string is, case-sensitively, one of
"Warning", "Error", "Critical"; an event with any other level string is a
member of no returned issue. -/
theorem significance_filter_exact (h : List Char → List Char) (l : List LogEntry)
    (e : LogEntry) (he : e ∈ l) :
    (∃ i ∈ detectIssues h l, e ∈ i.log_entries) ↔ e.level ∈ significantLevels := by
  constructor
  · rintro ⟨i, hi, hmem⟩
    rcases (mem_detectIssues h l i).mp hi with ⟨k, _, hcreate⟩
    have hfields := createIssue_fields _ _ _ hcreate
    rw [hfields.2.1] at hmem
    have := (mem_issueGroup h l k e).mp hmem
    exact ((mem_significant l e).mp this.1).2
  · intro hlev
    have hsig : e ∈ significant l := (mem_significant l e).mpr ⟨he, hlev⟩
    set k := fingerprint h e with hk
    have hkmem : k ∈ firstDedup ((significant l).map (fingerprint h)) := by
      rw [mem_firstDedup]
      exact List.mem_map.mpr ⟨e, hsig, rfl⟩
    have hgroup : e ∈ issueGroup h l k := (mem_issueGroup h l k e).mpr ⟨hsig, rfl⟩
    have hne : issueGroup h l k ≠ [] := fun hnil => by
      rw [hnil] at hgroup
      simp at hgroup
    rcases createIssue_isSome k (issueGroup h l k) hne with ⟨i, hi⟩
    refine ⟨i, (mem_detectIssues h l i).mpr ⟨k, hkmem, hi⟩, ?_⟩
    rw [(createIssue_fields _ _ _ hi).2.1]
    exact hgroup

def c10entry : LogEntry :=
  { event_number := 1, level := ("ERROR").toList, source := ("Disk").toList,
    event_id := 7, timestamp := ⟨2024, 1, 1, 0, 0, 0, 0⟩,
    message := ("read failed").toList, log_type := ("System").toList,
    user_id := ("u1").toList, system_name := ("s1").toList,
    session_timestamp := ("t1").toList }

theorem significance_filter_exact_witness :
    (∃ i ∈ detectIssues id [c10entry], c10entry ∈ i.log_entries) ↔
      c10entry.level ∈ significantLevels :=
  significance_filter_exact id [c10entry] c10entry (List.mem_singleton.mpr rfl)

/-! ### C6: grouping is order-independent -/

/-- Grouping-level content of an issue: its identifier, the multiset of its
member events, and its occurrence count. -/
def issueEssence (i : Issue) : List Char × Multiset LogEntry × Nat :=
  (i.issue_id, (i.log_entries : Multiset LogEntry), i.occurrences)

/-- C6. Issue detection is order-independent at the grouping level: for any
permutation of the input entries, every fingerprint group is the same up to
permutation of its members, and the issues produced by `detect_issues` carry
the same multiset of (identifier, member multiset, occurrence count) data. -/
theorem detect_issues_order_independent (h : List Char → List Char)
    (l1 l2 : List LogEntry) (hp : l1.Perm l2) :
    (∀ k, (issueGroup h l1 k).Perm (issueGroup h l2 k)) ∧
      Multiset.ofList ((detectIssues h l1).map issueEssence) =
        Multiset.ofList ((detectIssues h l2).map issueEssence) := by
  have hsig : (significant l1).Perm (significant l2) := hp.filter _
  have hgroups : ∀ k, (issueGroup h l1 k).Perm (issueGroup h l2 k) := fun k => hsig.filter _
  refine ⟨hgroups, ?_⟩
  have hkeys : (firstDedup ((significant l1).map (fingerprint h))).Perm
      (firstDedup ((significant l2).map (fingerprint h))) :=
    firstDedup_perm _ _ (hsig.map _)
  unfold detectIssues
  rw [List.map_filterMap, List.map_filterMap]
  have hfun : ∀ k,
      (createIssueFromEntries k (issueGroup h l1 k)).map issueEssence =
        (createIssueFromEntries k (issueGroup h l2 k)).map issueEssence := by
    intro k
    cases hg1 : issueGroup h l1 k with
    | nil =>
      have hg2 : issueGroup h l2 k = [] := by
        apply List.Perm.eq_nil
        rw [← hg1]
        exact (hgroups k).symm
      rw [hg2, createIssue_none]
    | cons a t =>
      have hg1ne : issueGroup h l1 k ≠ [] := by rw [hg1]; simp
      have hg2ne : issueGroup h l2 k ≠ [] := by
        intro hnil
        apply hg1ne
        apply List.Perm.eq_nil
        rw [← hnil]
        exact hgroups k
      rw [← hg1]
      rcases createIssue_isSome k (issueGroup h l1 k) hg1ne with ⟨i1, hi1⟩
      rcases createIssue_isSome k (issueGroup h l2 k) hg2ne with ⟨i2, hi2⟩
      have hf1 := createIssue_fields _ _ _ hi1
      have hf2 := createIssue_fields _ _ _ hi2
      rw [hi1, hi2]
      show some (issueEssence i1) = some (issueEssence i2)
      congr 1
      unfold issueEssence
      rw [hf1.1, hf2.1, hf1.2.1, hf1.2.2, hf2.2.1, hf2.2.2]
      have hmulti : ((issueGroup h l1 k : List LogEntry) : Multiset LogEntry) =
          ((issueGroup h l2 k : List LogEntry) : Multiset LogEntry) :=
        Multiset.coe_eq_coe.mpr (hgroups k)
      rw [hmulti, (hgroups k).length_eq]
  rw [List.filterMap_congr (fun k _ => hfun k)]
  exact Multiset.coe_eq_coe.mpr (hkeys.filterMap _)

def c6entryA : LogEntry :=
  { event_number := 1, level := ("Error").toList, source := ("Disk").toList,
    event_id := 7, timestamp := ⟨2024, 1, 1, 0, 0, 0, 0⟩,
    message := ("read failed").toList, log_type := ("System").toList,
    user_id := ("u1").toList, system_name := ("s1").toList,
    session_timestamp := ("t1").toList }

def c6entryB : LogEntry :=
  { event_number := 2, level := ("Warning").toList, source := ("Net").toList,
    event_id := 9, timestamp := ⟨2024, 1, 1, 0, 0, 0, 0⟩,
    message := ("timeout").toList, log_type := ("System").toList,
    user_id := ("u2").toList, system_name := ("s2").toList,
    session_timestamp := ("t1").toList }

theorem detect_issues_order_independent_witness :
    (∀ k, (issueGroup id [c6entryA, c6entryB] k).Perm (issueGroup id [c6entryB, c6entryA] k)) ∧
      Multiset.ofList ((detectIssues id [c6entryA, c6entryB]).map issueEssence) =
        Multiset.ofList ((detectIssues id [c6entryB, c6entryA]).map issueEssence) :=
  detect_issues_order_independent id [c6entryA, c6entryB] [c6entryB, c6entryA]
    (List.Perm.swap c6entryB c6entryA [])

/-! ### C7: ranking by the three-key composite -/

theorem keyLE_total (x y : Int × Int × Int) : keyLE x y ∨ keyLE y x := by
  unfold keyLE
  omega

theorem keyLE_trans (x y z : Int × Int × Int) (h1 : keyLE x y) (h2 : keyLE y z) : keyLE x z := by
  unfold keyLE at *
  omega

instance : IsTotal Issue issueRel := ⟨fun a b => keyLE_total (sortKey a) (sortKey b)⟩

instance : IsTrans Issue issueRel :=
  ⟨fun a b c hab hbc => keyLE_trans (sortKey a) (sortKey b) (sortKey c) hab hbc⟩

/-- C7. The `get_sorted_issues` sort is a permutation of the issue list,
sorted under the composite key (descending unique-owner count, then the
severity rank Critical, Error, Warning, Information, then unrecognised, then
descending occurrences); in particular any issue with unique-owner count 3 is
placed strictly before any issue with unique-owner count 1, regardless of
severities. -/
theorem get_sorted_issues_ranking (r : AnalysisReport) :
    (getSortedIssues r).Perm r.issues ∧
      List.Sorted issueRel (getSortedIssues r) ∧
      ∀ (A B : Issue) (i j : Nat) (hi : i < (getSortedIssues r).length)
        (hj : j < (getSortedIssues r).length),
        userCount A = 3 → userCount B = 1 →
        (getSortedIssues r).get ⟨i, hi⟩ = A → (getSortedIssues r).get ⟨j, hj⟩ = B →
        i < j := by
  refine ⟨List.perm_insertionSort issueRel r.issues,
    List.sorted_insertionSort issueRel r.issues, ?_⟩
  intro A B i j hi hj hA hB hgA hgB
  by_contra hij
  push_neg at hij
  have hsorted : List.Sorted issueRel (getSortedIssues r) :=
    List.sorted_insertionSort issueRel r.issues
  rcases Nat.lt_or_ge j i with hji | hge
  · have hrel : issueRel ((getSortedIssues r).get ⟨j, hj⟩) ((getSortedIssues r).get ⟨i, hi⟩) :=
      hsorted.rel_get_of_lt hji
    rw [hgA, hgB] at hrel
    unfold issueRel keyLE sortKey at hrel
    rw [hA, hB] at hrel
    simp only at hrel
    omega
  · have hij' : i = j := by omega
    subst hij'
    rw [hgA] at hgB
    rw [hgB] at hA
    rw [hB] at hA
    exact absurd hA (by omega)

def c7issueA : Issue :=
  { issue_id := ("aaaa").toList, category := ("Disk Issues").toList,
    severity := ("Information").toList, description := ("d1").toList,
    pattern := ("p1").toList,
    affected_users := [("u1").toList, ("u2").toList, ("u3").toList],
    affected_systems := [("s1").toList], occurrences := 1, log_entries := [],
    root_cause := ("r1").toList, solution := ("s1").toList }

def c7issueB : Issue :=
  { issue_id := ("bbbb").toList, category := ("Disk Issues").toList,
    severity := ("Critical").toList, description := ("d2").toList,
    pattern := ("p2").toList,
    affected_users := [("v1").toList],
    affected_systems := [("s2").toList], occurrences := 9, log_entries := [],
    root_cause := ("r2").toList, solution := ("s2").toList }

def c7report : AnalysisReport :=
  { generated_at := ⟨2024, 1, 1, 0, 0, 0, 0⟩, total_users_analyzed := 4,
    total_systems_analyzed := 2, total_logs_processed := 10,
    issues := [c7issueB, c7issueA] }

theorem get_sorted_issues_ranking_witness :
    userCount c7issueA = 3 ∧ userCount c7issueB = 1 ∧ (0 : Nat) < 1 :=
  ⟨by decide, by decide,
    (get_sorted_issues_ranking c7report).2.2 c7issueA c7issueB 0 1
      (by decide) (by decide) (by decide) (by decide) (by decide) (by decide)⟩

/-! ### C8: the Uncategorized fallback -/

theorem infixOfB_refl (x : List Char) : infixOfB x x = true := by
  cases x with
  | nil => rfl
  | cons c t =>
    unfold infixOfB
    rw [List.isPrefixOf_iff_prefix.mpr (List.prefix_refl _)]
    simp

theorem lookup_eq_none_of_no_infix (m : List (List Char × List Char)) (x : List Char)
    (h : ∀ kv ∈ m, infixOfB (pyLower kv.1) (pyLower x) = false) :
    m.lookup x = none := by
  induction m with
  | nil => rfl
  | cons kv t ih =>
    rw [List.lookup]
    by_cases hkx : kv.1 = x
    · exfalso
      have := h kv (List.mem_cons_self _ _)
      rw [hkx, infixOfB_refl] at this
      cases this
    · have hbeq : (x == kv.1) = false := beq_eq_false_iff_ne.mpr (fun he => hkx he.symm)
      rw [hbeq]
      exact ih (fun kv2 hkv2 => h kv2 (List.mem_cons_of_mem _ hkv2))

/-- C8. If a significant event matches no rule of the table (neither by
regex, nor by two message keywords, nor by the literal "event id N" in the
pattern string, nor by two keywords in source or log type) and its source
and log type contain no key of the fallback lookup table, then the issue
built from its group is categorised "Uncategorized" with the generic
investigate-further root-cause and solution texts, and its severity is the
representative event's own level. -/
theorem uncategorized_fallback (sig : List Char) (e : LogEntry) (rest : List LogEntry)
    (hrules : issuePatterns.all (fun r => !(ruleMatches e r)) = true)
    (hmap : categoryMap.all (fun kv => !(infixOfB (pyLower kv.1) (pyLower e.log_type) ||
      infixOfB (pyLower kv.1) (pyLower e.source))) = true) :
    ∃ i, createIssueFromEntries sig (e :: rest) = some i ∧
      i.category = uncategorizedCategory ∧ i.root_cause = fallbackRootCause ∧
      i.solution = fallbackSolution ∧ i.severity = e.level := by
  have hfind1 : issuePatterns.find? (fun r => ruleMatches e r) = none := by
    rw [List.find?_eq_none]
    intro r hr
    have := (List.all_eq_true.mp hrules) r hr
    simp only [Bool.not_eq_true'] at this
    simp [this]
  have hmap' : ∀ kv ∈ categoryMap,
      (infixOfB (pyLower kv.1) (pyLower e.log_type) ||
        infixOfB (pyLower kv.1) (pyLower e.source)) = false := by
    intro kv hkv
    have := (List.all_eq_true.mp hmap) kv hkv
    simpa using this
  have hfind2 : categoryMap.find? (fun kv =>
      infixOfB (pyLower kv.1) (pyLower e.log_type) ||
        infixOfB (pyLower kv.1) (pyLower e.source)) = none := by
    rw [List.find?_eq_none]
    intro kv hkv
    simp [hmap' kv hkv]
  have hlookup : categoryMap.lookup e.log_type = none := by
    apply lookup_eq_none_of_no_infix
    intro kv hkv
    have := hmap' kv hkv
    rcases Bool.or_eq_false_iff.mp this with ⟨h1, _⟩
    exact h1
  have hcat : categorizeIssue e =
      (uncategorizedCategory, fallbackRootCause, fallbackSolution, none) := by
    unfold categorizeIssue
    rw [hfind1, hfind2, hlookup]
    rfl
  refine ⟨{ issue_id := sig.take 8,
            category := uncategorizedCategory,
            severity := e.level,
            description := generateIssueDescription e,
            pattern := ("Event ID: ").toList ++ intStr e.event_id ++
              (", Source: ").toList ++ e.source,
            affected_users := firstDedup ((e :: rest).map (fun x => x.user_id)),
            affected_systems := firstDedup ((e :: rest).map (fun x => x.system_name)),
            occurrences := (e :: rest).length,
            log_entries := e :: rest,
            root_cause := fallbackRootCause,
            solution := fallbackSolution }, ?_, rfl, rfl, rfl, rfl⟩
  simp only [createIssueFromEntries, hcat]

def c8entry : LogEntry :=
  { event_number := 1, level := ("Error").toList, source := ("abc").toList,
    event_id := 99, timestamp := ⟨2024, 1, 1, 0, 0, 0, 0⟩,
    message := ("hello xyzzy").toList, log_type := ("qqq").toList,
    user_id := ("u1").toList, system_name := ("s1").toList,
    session_timestamp := ("t1").toList }

set_option maxRecDepth 4000 in
theorem uncategorized_fallback_witness :
    ∃ i, createIssueFromEntries (("sig12345").toList) [c8entry] = some i ∧
      i.category = uncategorizedCategory ∧ i.root_cause = fallbackRootCause ∧
      i.solution = fallbackSolution ∧ i.severity = c8entry.level :=
  uncategorized_fallback (("sig12345").toList) c8entry [] (by decide) (by decide)

/-! ### C9: timestamp fallback policy -/

/-- C9. `_parse_timestamp` tries its three formats in their fixed order and
returns the first successful parse; when every format fails it returns the
current wall-clock time `now`.  The embedding is a total function: each
format attempt either produces a value or fails with the caught
`ValueError`, so no exception reaches the caller. -/
theorem parse_timestamp_first_success (now : PyDateTime) (s : List Char) :
    (∀ d, strptime s TsFmt.ymdHMS = some d → parseTimestamp now s = d) ∧
      (strptime s TsFmt.ymdHMS = none →
        ∀ d, strptime s TsFmt.ymdHMSf = some d → parseTimestamp now s = d) ∧
      (strptime s TsFmt.ymdHMS = none → strptime s TsFmt.ymdHMSf = none →
        ∀ d, strptime s TsFmt.mdyHMS = some d → parseTimestamp now s = d) ∧
      (strptime s TsFmt.ymdHMS = none → strptime s TsFmt.ymdHMSf = none →
        strptime s TsFmt.mdyHMS = none → parseTimestamp now s = now) := by
  refine ⟨?_, ?_, ?_, ?_⟩
  · intro d hd
    simp only [parseTimestamp, tsFormats, tsGo, hd]
  · intro h1 d hd
    simp only [parseTimestamp, tsFormats, tsGo, h1, hd]
  · intro h1 h2 d hd
    simp only [parseTimestamp, tsFormats, tsGo, h1, h2, hd]
  · intro h1 h2 h3
    simp only [parseTimestamp, tsFormats, tsGo, h1, h2, h3]

theorem parse_timestamp_first_success_witness :
    parseTimestamp ⟨2025, 6, 1, 12, 0, 0, 0⟩ (("not a timestamp").toList) =
        ⟨2025, 6, 1, 12, 0, 0, 0⟩ ∧
      parseTimestamp ⟨2025, 6, 1, 12, 0, 0, 0⟩ (("2024-02-30 10:00:00").toList) =
        ⟨2025, 6, 1, 12, 0, 0, 0⟩ ∧
      parseTimestamp ⟨2025, 6, 1, 12, 0, 0, 0⟩ (("2024-01-02 10:22:33").toList) =
        ⟨2024, 1, 2, 10, 22, 33, 0⟩ :=
  ⟨(parse_timestamp_first_success ⟨2025, 6, 1, 12, 0, 0, 0⟩
      (("not a timestamp").toList)).2.2.2 rfl rfl rfl,
    (parse_timestamp_first_success ⟨2025, 6, 1, 12, 0, 0, 0⟩
      (("2024-02-30 10:00:00").toList)).2.2.2 rfl rfl rfl,
    (parse_timestamp_first_success ⟨2025, 6, 1, 12, 0, 0, 0⟩
      (("2024-01-02 10:22:33").toList)).1 ⟨2024, 1, 2, 10, 22, 33, 0⟩ rfl⟩

/-! ### C4: the text-format chain stops at the first pattern with matches -/

/-- C4. `_parse_text_log_file` applies the rich, multi-line and inline
patterns in that fixed order and uses exactly the first that yields at least
one match: when an earlier pattern has matches, the returned entries are the
conversions of that pattern's matches and the later matchers are never
consulted (the result is invariant under replacing them). -/
theorem text_parser_first_match_chain (now : PyDateTime) (ctx : ParseCtx)
    (mA : List Char → List ActualGroups)
    (mM mM2 : List Char → List MultiGroups)
    (mI mI2 : List Char → List InlineGroups)
    (content : List Char) :
    (mA content ≠ [] →
      parseTextLog now ctx mA mM mI content =
          (mA content).filterMap (convertActual now ctx) ∧
        parseTextLog now ctx mA mM mI content = parseTextLog now ctx mA mM2 mI2 content) ∧
      (mA content = [] → mM content ≠ [] →
        parseTextLog now ctx mA mM mI content =
            (mM content).filterMap (convertLoose now ctx) ∧
          parseTextLog now ctx mA mM mI content = parseTextLog now ctx mA mM mI2 content) ∧
      (mA content = [] → mM content = [] →
        parseTextLog now ctx mA mM mI content =
          (mI content).filterMap (convertInlineG now ctx)) := by
  refine ⟨?_, ?_, ?_⟩
  · intro hA
    have hA' : (mA content).isEmpty = false := by
      rw [List.isEmpty_eq_false_iff_exists_mem]
      cases hm : mA content with
      | nil => exact absurd hm hA
      | cons a t => exact ⟨a, by simp⟩
    constructor
    · simp [parseTextLog, hA']
    · simp [parseTextLog, hA']
  · intro hA hM
    have hA' : (mA content).isEmpty = true := by rw [hA]; rfl
    have hM' : (mM content).isEmpty = false := by
      rw [List.isEmpty_eq_false_iff_exists_mem]
      cases hm : mM content with
      | nil => exact absurd hm hM
      | cons a t => exact ⟨a, by simp⟩
    constructor
    · simp [parseTextLog, hA', hM']
    · simp [parseTextLog, hA', hM']
  · intro hA hM
    have hA' : (mA content).isEmpty = true := by rw [hA]; rfl
    have hM' : (mM content).isEmpty = true := by rw [hM]; rfl
    simp [parseTextLog, hA', hM']

def c4ctx : ParseCtx :=
  { log_type := ("System").toList, user_id := ("u").toList,
    system_name := ("s").toList, session_timestamp := ("t").toList }

def c4actual : ActualGroups :=
  { g0 := ("1").toList, g1 := ("2024-01-02 10:22:33").toList,
    g2 := ("Error").toList, g3 := ("Disk").toList, g4 := ("7").toList,
    g5 := ("None").toList, g6 := ("boom").toList }

def c4multi : MultiGroups :=
  { g0 := ("2").toList, g1 := some (("Warning").toList),
    g2 := some (("Net").toList), g3 := some (("9").toList),
    g4 := some (("2024-01-02 10:22:33").toList), g5 := ("zap").toList }

def c4inline : InlineGroups :=
  { g0 := ("3").toList, g1 := ("Error").toList, g2 := ("App").toList,
    g3 := ("4").toList, g4 := ("2024-01-02 10:22:33").toList, g5 := ("pow").toList }

theorem text_parser_first_match_chain_witness :
    parseTextLog ⟨2025, 1, 1, 0, 0, 0, 0⟩ c4ctx (fun _ => [c4actual]) (fun _ => [])
        (fun _ => []) [] =
      ([c4actual]).filterMap (convertActual ⟨2025, 1, 1, 0, 0, 0, 0⟩ c4ctx) ∧
    parseTextLog ⟨2025, 1, 1, 0, 0, 0, 0⟩ c4ctx (fun _ => [c4actual]) (fun _ => [])
        (fun _ => []) [] =
      parseTextLog ⟨2025, 1, 1, 0, 0, 0, 0⟩ c4ctx (fun _ => [c4actual])
        (fun _ => [c4multi]) (fun _ => [c4inline]) [] :=
  (text_parser_first_match_chain ⟨2025, 1, 1, 0, 0, 0, 0⟩ c4ctx (fun _ => [c4actual])
    (fun _ => []) (fun _ => [c4multi]) (fun _ => []) (fun _ => [c4inline]) []).1
    (by simp)

/-! ### C3: missing optional fields in a multi-line match -/

/-- C3 (divergence witness). For a multi-line-format match, a missing Level
group defaults to "Information" and a missing Event ID group defaults to 0,
producing an event; but a missing Source or Time group reaches
`groups[2].strip()` / `groups[4].strip()` as `None`, so the per-match
handler catches the `AttributeError` and the match is skipped: no event with
a defaulted "Unknown" source is ever produced.  The claimed defaulting for
Source and Time is therefore dead code (`len(groups) > 2` is always true),
and the parser drops those matches instead. -/
theorem multiline_optional_field_behavior (now : PyDateTime) (ctx : ParseCtx) :
    convertLoose now ctx
        { g0 := ("1").toList, g1 := some (("Error").toList), g2 := none,
          g3 := some (("5").toList),
          g4 := some (("2024-01-01 10:00:00").toList), g5 := ("boom").toList } = none ∧
      convertLoose now ctx
        { g0 := ("1").toList, g1 := some (("Error").toList),
          g2 := some (("Disk").toList), g3 := some (("5").toList),
          g4 := none, g5 := ("boom").toList } = none ∧
      convertLoose now ctx
        { g0 := ("1").toList, g1 := none, g2 := some (("Disk").toList),
          g3 := some (("5").toList),
          g4 := some (("2024-01-01 10:00:00").toList), g5 := ("boom").toList } =
        some
          { event_number := 1, level := ("Information").toList,
            source := ("Disk").toList, event_id := 5,
            timestamp := ⟨2024, 1, 1, 10, 0, 0, 0⟩, message := ("boom").toList,
            log_type := ctx.log_type, user_id := ctx.user_id,
            system_name := ctx.system_name,
            session_timestamp := ctx.session_timestamp } ∧
      convertLoose now ctx
        { g0 := ("1").toList, g1 := some (("Error").toList),
          g2 := some (("Disk").toList), g3 := none,
          g4 := some (("2024-01-01 10:00:00").toList), g5 := ("boom").toList } =
        some
          { event_number := 1, level := ("Error").toList,
            source := ("Disk").toList, event_id := 0,
            timestamp := ⟨2024, 1, 1, 10, 0, 0, 0⟩, message := ("boom").toList,
            log_type := ctx.log_type, user_id := ctx.user_id,
            system_name := ctx.system_name,
            session_timestamp := ctx.session_timestamp } :=
  ⟨rfl, rfl, rfl, rfl⟩

/-! ### C2: session discovery ignores the files a directory contains -/

/-- C2 (amended). `discover_logs` emits one `(owner, host, session, path)`
tuple for every depth-3 chain of directories under the root, regardless of
the files (if any) those directories contain: membership in its output
depends only on the directory structure. -/
theorem discover_logs_emits_every_depth3 (base : List Char)
    (root : List (List Char × FsEntry)) (u s t p : List Char) :
    (u, s, t, p) ∈ discoverLogs base root ↔
      ((∃ sys, (u, FsEntry.dir sys) ∈ root ∧ ∃ sess, (s, FsEntry.dir sess) ∈ sys ∧
        ∃ c, (t, FsEntry.dir c) ∈ sess) ∧
        p = base ++ [ '/' ] ++ u ++ [ '/' ] ++ s ++ [ '/' ] ++ t) := by
  unfold discoverLogs
  rw [List.mem_flatMap]
  constructor
  · rintro ⟨ue, hue, hmem⟩
    rcases ue with ⟨un, ufe⟩
    cases ufe with
    | file => simp at hmem
    | dir sys =>
      simp only at hmem
      rw [List.mem_flatMap] at hmem
      rcases hmem with ⟨se, hse, hmem2⟩
      rcases se with ⟨sn, sfe⟩
      cases sfe with
      | file => simp at hmem2
      | dir sess =>
        simp only at hmem2
        rw [List.mem_flatMap] at hmem2
        rcases hmem2 with ⟨te, hte, hmem3⟩
        rcases te with ⟨tn, tfe⟩
        cases tfe with
        | file => simp at hmem3
        | dir c =>
          simp only [List.mem_singleton] at hmem3
          injection hmem3 with h1 h2
          injection h2 with h2 h3
          injection h3 with h3 h4
          subst h1
          subst h2
          subst h3
          exact ⟨⟨sys, hue, sess, hse, c, hte⟩, h4⟩
  · rintro ⟨⟨sys, hu, sess, hs, c, ht⟩, hp⟩
    refine ⟨(u, FsEntry.dir sys), hu, ?_⟩
    simp only
    rw [List.mem_flatMap]
    refine ⟨(s, FsEntry.dir sess), hs, ?_⟩
    simp only
    rw [List.mem_flatMap]
    refine ⟨(t, FsEntry.dir c), ht, ?_⟩
    simp only [List.mem_singleton]
    rw [hp]

def c2tree : List (List Char × FsEntry) :=
  [((("alice").toList, FsEntry.dir
      [((("host1").toList, FsEntry.dir
        [((("sess1").toList, FsEntry.dir []))]))]))]

/-- C2 (counterexample to the claim as stated). The session directory of
`c2tree` contains nothing at all — in particular no file accepted by any
predicate — yet `discover_logs` emits it as a session. -/
theorem discover_logs_emits_fileless_session :
    discoverLogs (("logs").toList) c2tree =
      [(("alice").toList, ("host1").toList, ("sess1").toList,
        ("logs/alice/host1/sess1").toList)] := by
  decide
